import Mathlib

/-!
# BayernTourismus MCP servers: `nominatim.js` and `bayerncloud.js`

A shallow embedding of the two request handlers (`server.fallbackRequestHandler`)
and of their helpers (`haversine`, `formatAddress`, `getScheduleInfo`), followed by
theorems about them.

Conventions of the embedding:

* JavaScript values that travel as JSON are values of `JsVal`; a handler's result is
  the `JsVal` object literal the source returns.
* A thrown exception is `Except.error`; the outermost `try`/`catch` of each handler
  turns it into the `-32603` envelope, as in the source.
* `fetch` is an oracle (`Platform.fetch`) from the request that is sent to what comes
  back; every handler also returns the list of requests it sent.
* `console.error` writes to stderr only; of a logging statement the embedding keeps
  what can raise an exception (the string conversions of its template literal).
* Numbers are IEEE-754 binary64 values, each given exactly; `+`, `-`, `*` and `/` are
  the correctly rounded operations. `Math.sin`, `Math.cos`, `Math.sqrt` and
  `Math.atan2`, which ECMAScript leaves implementation-approximated, are taken from
  the platform, and so is `encodeURIComponent`, which may throw.
-/

set_option autoImplicit false

namespace BayernMcp

/-! ## Numbers -/

/-- A JavaScript number (IEEE-754 binary64): `fin neg m e` is the finite value
`(-1)^neg * m * 2^e`, given exactly; the two zeros are `m = 0`. -/
inductive JsNum
  | fin (neg : Bool) (m : Nat) (e : Int)
  | inf (neg : Bool)
  | nan
deriving DecidableEq

/-- The number of a non-negative integer literal or of a `length`
(exact below `2^53`). -/
def JsNum.ofNat (n : Nat) : JsNum := .fin false n 0

/-- Number of binary digits of `n` (`0` for `n = 0`), by halving at most `fuel` times. -/
def bitLengthAux : Nat → Nat → Nat
  | 0, _ => 0
  | fuel + 1, n => if n = 0 then 0 else bitLengthAux fuel (n / 2) + 1

/-- Number of binary digits of `n`: `2^(bitLength n - 1) ≤ n < 2^(bitLength n)` for `n > 0`. -/
def bitLength (n : Nat) : Nat := bitLengthAux n n

/-- The exponent `e` with `2^e ≤ p/q < 2^(e+1)`, for positive `p` and `q`. -/
def log2Ratio (p q : Nat) : Int :=
  let e0 : Int := (bitLength p : Int) - (bitLength q : Int)
  if 0 ≤ e0 then (if q * 2 ^ e0.toNat ≤ p then e0 else e0 - 1)
  else (if q ≤ p * 2 ^ (-e0).toNat then e0 else e0 - 1)

/-- IEEE-754 rounding to binary64 (round to nearest, ties to even, gradual underflow,
overflow to infinity) of the exact ratio `± p/q`, `q > 0`. -/
def roundRatio (neg : Bool) (p q : Nat) : JsNum :=
  if p = 0 ∨ q = 0 then .fin neg 0 0
  else
    let e := log2Ratio p q
    let u : Int := max (e - 52) (-1074)
    let P := if 0 ≤ u then p else p * 2 ^ (-u).toNat
    let Q := if 0 ≤ u then q * 2 ^ u.toNat else q
    let m := P / Q
    let r := P % Q
    let m1 := if Q < 2 * r ∨ (2 * r = Q ∧ m % 2 = 1) then m + 1 else m
    if 971 < u ∨ (u = 971 ∧ 2 ^ 53 ≤ m1) then .inf neg else .fin neg m1 u

/-- The number of a JSON decimal literal `± digits × 10^exp10`, as `JSON.parse`
produces it. -/
def JsNum.ofDecimal (neg : Bool) (digits : Nat) (exp10 : Int) : JsNum :=
  if 0 ≤ exp10 then roundRatio neg (digits * 10 ^ exp10.toNat) 1
  else roundRatio neg digits (10 ^ (-exp10).toNat)

/-- The quotient `x / c` of a number by a positive integer literal `c`
(the source's `distance / 1000`). -/
def JsNum.divNat (x : JsNum) (c : Nat) : JsNum :=
  match x with
  | .fin neg m e =>
    if 0 ≤ e then roundRatio neg (m * 2 ^ e.toNat) c
    else roundRatio neg m (c * 2 ^ (-e).toNat)
  | .inf neg => .inf neg
  | .nan => .nan

/-- The number nearest to the exact value `± m * 2^e`. -/
def roundDyadic (neg : Bool) (m : Nat) (e : Int) : JsNum :=
  if 0 ≤ e then roundRatio neg (m * 2 ^ e.toNat) 1 else roundRatio neg m (2 ^ (-e).toNat)

/-- The unary minus `-x`: the sign is flipped. -/
def JsNum.neg : JsNum → JsNum
  | .fin n m e => .fin (!n) m e
  | .inf n => .inf (!n)
  | .nan => .nan

/-- The sum `x + y` of IEEE-754: the exact sum, rounded; an exact zero is `+0` unless
both operands are `-0`; opposite infinities give `NaN`. -/
def JsNum.add : JsNum → JsNum → JsNum
  | .fin n1 m1 e1, .fin n2 m2 e2 =>
    if n1 = n2 then
      roundDyadic n1 (m1 * 2 ^ (e1 - min e1 e2).toNat + m2 * 2 ^ (e2 - min e1 e2).toNat)
        (min e1 e2)
    else if m2 * 2 ^ (e2 - min e1 e2).toNat < m1 * 2 ^ (e1 - min e1 e2).toNat then
      roundDyadic n1 (m1 * 2 ^ (e1 - min e1 e2).toNat - m2 * 2 ^ (e2 - min e1 e2).toNat)
        (min e1 e2)
    else if m1 * 2 ^ (e1 - min e1 e2).toNat < m2 * 2 ^ (e2 - min e1 e2).toNat then
      roundDyadic n2 (m2 * 2 ^ (e2 - min e1 e2).toNat - m1 * 2 ^ (e1 - min e1 e2).toNat)
        (min e1 e2)
    else .fin false 0 0
  | .fin _ _ _, .inf n => .inf n
  | .inf n, .fin _ _ _ => .inf n
  | .inf n1, .inf n2 => if n1 = n2 then .inf n1 else .nan
  | .nan, _ => .nan
  | _, .nan => .nan

/-- The difference `x - y` of IEEE-754, which is `x + (-y)`. -/
def JsNum.sub (x y : JsNum) : JsNum := x.add y.neg

/-- The product `x * y` of IEEE-754: the exact product, rounded, with the sign of the
signs; zero times infinity is `NaN`. -/
def JsNum.mul : JsNum → JsNum → JsNum
  | .fin n1 m1 e1, .fin n2 m2 e2 => roundDyadic (n1 != n2) (m1 * m2) (e1 + e2)
  | .fin n1 m1 _, .inf n2 => if m1 = 0 then .nan else .inf (n1 != n2)
  | .inf n1, .fin n2 m2 _ => if m2 = 0 then .nan else .inf (n1 != n2)
  | .inf n1, .inf n2 => .inf (n1 != n2)
  | .nan, _ => .nan
  | _, .nan => .nan

/-- The quotient `x / y` of IEEE-754: the exact quotient, rounded, with the sign of the
signs; a non-zero number over zero is an infinity, and `0 / 0` and `∞ / ∞` are `NaN`. -/
def JsNum.div : JsNum → JsNum → JsNum
  | .fin n1 m1 e1, .fin n2 m2 e2 =>
    if m2 = 0 then (if m1 = 0 then .nan else .inf (n1 != n2))
    else if e2 ≤ e1 then roundRatio (n1 != n2) (m1 * 2 ^ (e1 - e2).toNat) m2
    else roundRatio (n1 != n2) m1 (m2 * 2 ^ (e2 - e1).toNat)
  | .fin n1 _ _, .inf n2 => .fin (n1 != n2) 0 0
  | .inf n1, .fin n2 _ _ => .inf (n1 != n2)
  | .inf _, .inf _ => .nan
  | .nan, _ => .nan
  | _, .nan => .nan

/-- Whether two finite values `m1 * 2^e1` and `m2 * 2^e2` are the same number. -/
def sameMagnitude (m1 : Nat) (e1 : Int) (m2 : Nat) (e2 : Int) : Bool :=
  let lo := min e1 e2
  m1 * 2 ^ (e1 - lo).toNat == m2 * 2 ^ (e2 - lo).toNat

/-- Numeric equality of two numbers as values (`NaN` equals nothing, `+0 = -0`). -/
def JsNum.sameValue (x y : JsNum) : Bool :=
  match x, y with
  | .fin n1 m1 e1, .fin n2 m2 e2 =>
    sameMagnitude m1 e1 m2 e2 && (n1 == n2 || m1 == 0)
  | .inf n1, .inf n2 => n1 == n2
  | _, _ => false

/-- The decimal digit `d < 10` as a character. -/
def digitChar (d : Nat) : Char :=
  match d with
  | 0 => '0' | 1 => '1' | 2 => '2' | 3 => '3' | 4 => '4'
  | 5 => '5' | 6 => '6' | 7 => '7' | 8 => '8' | _ => '9'

/-- Decimal digits of `n`, most significant first, in front of `acc`. -/
def natDigitsAux : Nat → Nat → List Char → List Char
  | 0, _, acc => acc
  | fuel + 1, n, acc =>
    if n < 10 then digitChar n :: acc
    else natDigitsAux fuel (n / 10) (digitChar (n % 10) :: acc)

/-- The decimal digits of a natural number (`0` gives `['0']`). -/
def natDigits (n : Nat) : List Char := natDigitsAux (n + 1) n []

/-- The decimal representation of a natural number. -/
def natStr (n : Nat) : String := String.mk (natDigits n)

/-- The number of decimal digits of `n`. -/
def decLength (n : Nat) : Nat := (natDigits n).length

/-- The integer `n` with `10^(n-1) ≤ P/Q < 10^n`, for positive `P` and `Q`. -/
def decimalExponent (P Q : Nat) : Int :=
  let d : Int := (decLength P : Int) - (decLength Q : Int)
  if (if 0 ≤ d then decide (Q * 10 ^ d.toNat ≤ P) else decide (Q ≤ P * 10 ^ (-d).toNat))
  then d + 1 else d

/-- Whether the decimal `s × 10^e10` converts to the positive number `m * 2^e`. -/
def readsBack (m : Nat) (e : Int) (s : Nat) (e10 : Int) : Bool :=
  (JsNum.ofDecimal false s e10).sameValue (.fin false m e)

/-- Step 5 of `Number::toString` for the positive number `m * 2^e = P/Q`: the
least `k` from the given one on, with `s` and `n`, such that `s × 10^(n-k)` has `k`
digits and converts back to the number; of two such `s` the one nearer to the
number, and the even one on a tie. The result is `(s, k, n)`. -/
def shortestDigits (m : Nat) (e : Int) (P Q : Nat) (n : Int) : Nat → Nat → Nat × Nat × Int
  | 0, k => (P * 10 ^ (k - n).toNat / (Q * 10 ^ (n - k).toNat), k, n)
  | fuel + 1, k =>
    let e10 : Int := n - k
    let P1 := if 0 ≤ e10 then P else P * 10 ^ (-e10).toNat
    let Q1 := if 0 ≤ e10 then Q * 10 ^ e10.toNat else Q
    let lo := P1 / Q1
    let r := P1 % Q1
    let okLo := readsBack m e lo e10
    let okHi := readsBack m e (lo + 1) e10
    if okHi && (!okLo || decide (Q1 < 2 * r) || (decide (2 * r = Q1) && decide (lo % 2 = 1))) then
      (if lo + 1 = 10 ^ k then (10 ^ (k - 1), k, n + 1) else (lo + 1, k, n))
    else if okLo then (lo, k, n)
    else shortestDigits m e P Q n fuel (k + 1)

/-- Steps 6 to 10 of `Number::toString`: the `k` digits `ds` with the decimal point
after the `n`-th, or in exponent form when `n` is outside `-5 .. 21`. -/
def formatDigits (ds : List Char) (k : Nat) (n : Int) : String :=
  if (k : Int) ≤ n ∧ n ≤ 21 then String.mk (ds ++ List.replicate (n.toNat - k) '0')
  else if 0 < n ∧ n ≤ 21 then String.mk (ds.take n.toNat ++ '.' :: ds.drop n.toNat)
  else if -6 < n ∧ n ≤ 0 then String.mk ('0' :: '.' :: List.replicate (-n).toNat '0' ++ ds)
  else
    let ex : Int := n - 1
    let tail := 'e' :: (if 0 ≤ ex then '+' else '-') :: natDigits ex.natAbs
    match ds with
    | [] => ""
    | d :: rest => if rest.isEmpty then String.mk (d :: tail) else String.mk (d :: '.' :: rest ++ tail)

/-- `Number::toString(x)` in radix 10 (ECMAScript 6.1.6.1.20): what a template
literal or `String(x)` gives for a number. -/
def JsNum.toStr (x : JsNum) : String :=
  match x with
  | .nan => "NaN"
  | .inf neg => if neg then "-Infinity" else "Infinity"
  | .fin neg m e =>
    if m = 0 then "0"
    else
      let P := if 0 ≤ e then m * 2 ^ e.toNat else m
      let Q := if 0 ≤ e then 1 else 2 ^ (-e).toNat
      let (s, k, n) := shortestDigits m e P Q (decimalExponent P Q) 17 1
      (if neg then "-" else "") ++ formatDigits (natDigits s) k n

/-- Whether `10^k ≤ m * 2^e`. -/
def atLeastPow10 (m : Nat) (e : Int) (k : Nat) : Bool :=
  if 0 ≤ e then decide (10 ^ k ≤ m * 2 ^ e.toNat) else decide (10 ^ k * 2 ^ (-e).toNat ≤ m)

/-- The integer nearest to `100 * m * 2^e`, the larger one on a tie:
`floor (100 * m * 2^e + 1/2)`. -/
def roundHundredths (m : Nat) (e : Int) : Nat :=
  if 0 ≤ e then 100 * m * 2 ^ e.toNat
  else (200 * m + 2 ^ (-e).toNat) / (2 * 2 ^ (-e).toNat)

/-- `Number.prototype.toFixed` with two fraction digits (ECMAScript 21.1.3.3, `f = 2`):
a non-finite number or one of absolute value `10^21` or more is printed as
`Number::toString` prints it; otherwise with `n` the integer nearest to `100 * |x|`
(the larger on a tie) the result is the sign, the digits of `n` before its last two,
a point, and the last two digits of `n`. -/
def JsNum.toFixed2 (x : JsNum) : String :=
  match x with
  | .fin neg m e =>
    if atLeastPow10 m e 21 then x.toStr
    else
      let n := roundHundredths m e
      (if neg && m != 0 then "-" else "") ++ natStr (n / 100) ++ "."
        ++ String.mk [digitChar (n / 10 % 10), digitChar (n % 10)]
  | _ => x.toStr

/-! ## Values -/

/-- A JavaScript value as it arrives in JSON or is built by an object literal.
`obj` lists the own properties of a plain object in enumeration order (each key once);
strings are sequences of Unicode scalar values. -/
inductive JsVal
  | undefined
  | null
  | bool (b : Bool)
  | num (x : JsNum)
  | str (s : String)
  | arr (items : List JsVal)
  | obj (props : List (String × JsVal))

/-- A thrown exception, by its `message`. The messages of errors the engine raises
are worded as V8 words them. -/
structure Thrown where
  message : String
deriving DecidableEq

/-- The value of the own property `k` in a property list, `undefined` if there is none. -/
def lookup (k : String) : List (String × JsVal) → JsVal
  | [] => .undefined
  | (k1, v) :: rest => if k1 = k then v else lookup k rest

/-- Whether a property list has the own property `k`. -/
def hasKey (k : String) : List (String × JsVal) → Bool
  | [] => false
  | (k1, _) :: rest => k1 = k || hasKey k rest

/-- `ToBoolean`: the falsy values are `undefined`, `null`, `false`, `0`, `NaN`
and the empty string. -/
def JsVal.truthy : JsVal → Bool
  | .undefined => false
  | .null => false
  | .bool b => b
  | .num (.fin _ m _) => m != 0
  | .num (.inf _) => true
  | .num .nan => false
  | .str s => s != ""
  | .arr _ => true
  | .obj _ => true

/-- The expression `a || b`. -/
def JsVal.or (a b : JsVal) : JsVal := if a.truthy then a else b

/-- The number of UTF-16 code units of a string (its `length`). -/
def utf16Length (s : String) : Nat :=
  (s.data.map fun c => if c.toNat < 65536 then 1 else 2).sum

/-- The member access `v.k` for the property names the sources read: a `TypeError`
on `undefined` and `null`, the own property of a plain object, `length` and the
element `0` of an array, `length` and the first character of a string (of a
character outside the basic plane the source would see the leading surrogate; no
property of it is ever read but `undefined` ones), and `undefined` otherwise. -/
def JsVal.get (v : JsVal) (k : String) : Except Thrown JsVal :=
  match v with
  | .undefined =>
    .error ⟨"Cannot read properties of undefined (reading '" ++ k ++ "')"⟩
  | .null => .error ⟨"Cannot read properties of null (reading '" ++ k ++ "')"⟩
  | .obj props => .ok (lookup k props)
  | .arr items =>
    if k = "length" then .ok (.num (JsNum.ofNat items.length))
    else if k = "0" then .ok (items.headD .undefined)
    else .ok .undefined
  | .str s =>
    if k = "length" then .ok (.num (JsNum.ofNat (utf16Length s)))
    else if k = "0" then
      (match s.data with
        | [] => .ok .undefined
        | c :: _ => .ok (.str (String.mk [c])))
    else .ok .undefined
  | _ => .ok .undefined

/-- A property picked by a destructuring pattern `const \x7b k \x7d = v`. -/
def JsVal.destructure (v : JsVal) (k : String) : Except Thrown JsVal :=
  match v with
  | .undefined => .error ⟨"Cannot destructure property '" ++ k ++ "' of 'undefined' as it is undefined."⟩
  | .null => .error ⟨"Cannot destructure property '" ++ k ++ "' of 'object null' as it is null."⟩
  | _ => v.get k

mutual
/-- `ToString`, as a template literal applies it. A plain object prints as
`[object Object]` unless it has an own property `toString` (which, coming from JSON,
is not callable: `OrdinaryToPrimitive` then finds no usable method and throws); an
array prints as `join(",")` prints it. -/
def JsVal.toStr : JsVal → Except Thrown String
  | .undefined => .ok "undefined"
  | .null => .ok "null"
  | .bool b => .ok (if b then "true" else "false")
  | .num x => .ok x.toStr
  | .str s => .ok s
  | .arr items => joinItems "," items
  | .obj props =>
    if hasKey "toString" props then .error ⟨"Cannot convert object to primitive value"⟩
    else .ok "[object Object]"
/-- `Array.prototype.join(sep)`: `undefined` and `null` elements print as the empty
string, the others as `ToString` prints them. -/
def joinItems (sep : String) : List JsVal → Except Thrown String
  | [] => .ok ""
  | .undefined :: rest => joinRest sep "" rest
  | .null :: rest => joinRest sep "" rest
  | x :: rest =>
    match JsVal.toStr x with
    | .error e => .error e
    | .ok s => joinRest sep s rest
/-- The elements after the first in a `join`, each behind the separator. -/
def joinRest (sep : String) (acc : String) : List JsVal → Except Thrown String
  | [] => .ok acc
  | .undefined :: rest => joinRest sep (acc ++ sep) rest
  | .null :: rest => joinRest sep (acc ++ sep) rest
  | x :: rest =>
    match JsVal.toStr x with
    | .error e => .error e
    | .ok s => joinRest sep (acc ++ sep ++ s) rest
end

/-- Whether a number is greater than zero. -/
def JsNum.isPositive : JsNum → Bool
  | .fin neg m _ => !neg && m != 0
  | .inf neg => !neg
  | .nan => false

/-- `ToNumber`: numbers are themselves, `undefined` is `NaN`, `null` is `0`, a boolean
is `0` or `1`, and a string, or an array or object through its `ToString`, is what
`StringToNumber` (`parse`) reads from it. -/
def JsVal.toNumber (parse : String → JsNum) : JsVal → Except Thrown JsNum
  | .undefined => .ok .nan
  | .null => .ok (JsNum.ofNat 0)
  | .bool b => .ok (JsNum.ofNat (if b then 1 else 0))
  | .num x => .ok x
  | .str s => .ok (parse s)
  | .arr items => (JsVal.toStr (.arr items)).map parse
  | .obj props => (JsVal.toStr (.obj props)).map parse

/-! ## `JSON.stringify(value, null, 2)` -/

/-- The hexadecimal digit `d < 16` in lower case. -/
def hexChar (d : Nat) : Char :=
  if d < 10 then digitChar d
  else match d with
    | 10 => 'a' | 11 => 'b' | 12 => 'c' | 13 => 'd' | 14 => 'e' | _ => 'f'

/-- One character inside a JSON string literal (`QuoteJSONString`). -/
def quoteChar (c : Char) : List Char :=
  if c = '"' then ['\\', '"']
  else if c = '\\' then ['\\', '\\']
  else if c.toNat = 8 then ['\\', 'b']
  else if c.toNat = 12 then ['\\', 'f']
  else if c.toNat = 10 then ['\\', 'n']
  else if c.toNat = 13 then ['\\', 'r']
  else if c.toNat = 9 then ['\\', 't']
  else if c.toNat < 32 then ['\\', 'u', '0', '0', hexChar (c.toNat / 16), hexChar (c.toNat % 16)]
  else [c]

/-- `QuoteJSONString`: a string as a JSON string literal. -/
def quoteJSONString (s : String) : String :=
  String.mk ('"' :: (s.data.flatMap quoteChar ++ ['"']))

/-- The lines of a non-empty array or object, joined by a comma and a line break,
between the brackets `open` and `close`, as `JSON.stringify` lays them out with a gap. -/
def wrapLines (opening closing stepback indent : String) (parts : List String) : String :=
  match parts with
  | [] => opening ++ closing
  | _ => opening ++ "\n" ++ indent ++ (",\n" ++ indent).intercalate parts ++ "\n" ++ stepback ++ closing

mutual
/-- `SerializeJSONProperty` with the gap of two spaces at the current indentation:
`none` stands for `undefined` (a value that is left out). -/
def serializeJSON (indent : String) : JsVal → Option String
  | .undefined => none
  | .null => some "null"
  | .bool b => some (if b then "true" else "false")
  | .num (.fin neg m e) => some (JsNum.toStr (.fin neg m e))
  | .num _ => some "null"
  | .str s => some (quoteJSONString s)
  | .arr items =>
    some (wrapLines "[" "]" indent (indent ++ "  ") (serializeItems (indent ++ "  ") items))
  | .obj props =>
    some (wrapLines "\x7b" "\x7d" indent (indent ++ "  ") (serializeProps (indent ++ "  ") props))
/-- The elements of an array, `undefined` ones as `null`. -/
def serializeItems (indent : String) : List JsVal → List String
  | [] => []
  | x :: rest => (serializeJSON indent x).getD "null" :: serializeItems indent rest
/-- The properties of an object, those with an `undefined` value left out. -/
def serializeProps (indent : String) : List (String × JsVal) → List String
  | [] => []
  | (k, v) :: rest =>
    match serializeJSON indent v with
    | none => serializeProps indent rest
    | some t => (quoteJSONString k ++ ": " ++ t) :: serializeProps indent rest
end

/-- `JSON.stringify(value, null, 2)` of a value that is not `undefined`. -/
def jsonStringify2 (v : JsVal) : String := (serializeJSON "" v).getD "undefined"

/-! ## The platform: `fetch`, `Math`, the environment -/

/-- An outbound HTTP request: `fetch(url)` is a `GET` without a body; `body` is the
value whose `JSON.stringify` is sent. -/
structure HttpRequest where
  method : String
  url : String
  headers : List (String × String)
  body : Option JsVal

/-- What `await fetch(...)` gives: a rejection (network failure), or a response with
its status and with what `await response.json()` gives (a value, or a rejection). -/
inductive FetchResult
  | failed (message : String)
  | response (status : Nat) (json : Except Thrown JsVal)

/-- The `ok` property of a response: the status is in the range 200 to 299. -/
def statusOk (status : Nat) : Bool := decide (200 ≤ status) && decide (status ≤ 299)

/-- The arithmetic and the `Math` functions `haversine` uses, on a number type `N`. -/
structure JsMath (N : Type) where
  ofNat : Nat → N
  add : N → N → N
  sub : N → N → N
  mul : N → N → N
  div : N → N → N
  PI : N
  sin : N → N
  cos : N → N
  sqrt : N → N
  atan2 : N → N → N

/-- What the servers take from the JavaScript platform and the network: `fetch`; the
functions `Math.sin`, `Math.cos`, `Math.sqrt` and `Math.atan2`, which ECMAScript
leaves implementation-approximated; `StringToNumber`; and `encodeURIComponent`, which
throws a `URIError` on a string with an unpaired surrogate. -/
structure Platform where
  fetch : HttpRequest → FetchResult
  sin : JsNum → JsNum
  cos : JsNum → JsNum
  sqrt : JsNum → JsNum
  atan2 : JsNum → JsNum → JsNum
  stringToNumber : String → JsNum
  encodeURIComponent : String → Except Thrown String

/-- The arithmetic of JavaScript numbers on a platform: the IEEE-754 binary64
operations, `Math.PI`, and the `Math` functions of the platform. -/
def binary64Math (P : Platform) : JsMath JsNum where
  ofNat := JsNum.ofNat
  add := JsNum.add
  sub := JsNum.sub
  mul := JsNum.mul
  div := JsNum.div
  PI := JsNum.ofDecimal false 3141592653589793 (-15)
  sin := P.sin
  cos := P.cos
  sqrt := P.sqrt
  atan2 := P.atan2

/-- The environment variables the servers read (`BCT_API_TOKEN` is not empty:
`bayerncloud.js` exits at start otherwise). -/
structure Env where
  NOMINATIM_BASE_URL : Option String
  OSRM_BASE_URL : Option String
  BAYERN_CLOUD_API_URL : Option String
  BCT_API_TOKEN : String

/-- The expression `process.env.X || fallback`. -/
def envOr (v : Option String) (fallback : String) : String :=
  match v with
  | some s => if s = "" then fallback else s
  | none => fallback

/-- The `id` of a request: a string, a number, or none. -/
inductive RequestId
  | str (s : String)
  | num (x : JsNum)
  | null

/-- A decoded request, as the transport hands it to `fallbackRequestHandler`. -/
structure Request where
  method : String
  params : JsVal
  id : RequestId

/-- The result of one call of a handler: the object it returns and the HTTP requests
it sent, in order. -/
structure Reply where
  response : JsVal
  sent : List HttpRequest

/-- The outcome of the body of the outer `try`: a returned value or a thrown error,
with the HTTP requests sent on the way. -/
abbrev Run := Except Thrown JsVal × List HttpRequest

/-! ## Envelopes -/

/-- The number of an integer literal. -/
def JsNum.ofInt (i : Int) : JsNum := .fin (decide (i < 0)) i.natAbs 0

/-- The content item `\x7btype: "text", text\x7d`. -/
def textItem (text : String) : JsVal := .obj [("type", .str "text"), ("text", .str text)]

/-- The envelope `\x7bcontent: [...]\x7d`. -/
def contentEnvelope (items : List JsVal) : JsVal := .obj [("content", .arr items)]

/-- The envelope `\x7berror: \x7bcode, message\x7d\x7d`. -/
def errorEnvelope (code : Int) (message : String) : JsVal :=
  .obj [("error", .obj [("code", .num (JsNum.ofInt code)), ("message", .str message)])]

/-- The envelope of the outermost `catch`. -/
def internalError (e : Thrown) : JsVal :=
  .obj [("error", .obj [("code", .num (JsNum.ofInt (-32603))), ("message", .str "Internal error"),
    ("data", .obj [("details", .str e.message)])])]

/-- The end of the outer `try`/`catch`: a thrown error becomes the `-32603` envelope. -/
def Run.toReply (r : Run) : Reply :=
  match r with
  | (.ok v, sent) => ⟨v, sent⟩
  | (.error e, sent) => ⟨internalError e, sent⟩

/-! ## The tool registries -/

/-- One entry of `inputSchema.properties`. -/
structure ParamSchema where
  name : String
  type : String
  description : String
  default : Option JsVal

/-- A tool descriptor: `name`, `description` and the `inputSchema` (always of type
`object`) with its `properties` and `required`. -/
structure ToolDescriptor where
  name : String
  description : String
  properties : List ParamSchema
  required : List String

/-- A schema entry as the object of the source. -/
def ParamSchema.toJson (p : ParamSchema) : String × JsVal :=
  (p.name, .obj ([("type", .str p.type), ("description", .str p.description)] ++
    (match p.default with
      | some d => [("default", d)]
      | none => [])))

/-- A descriptor as the object of the source. -/
def ToolDescriptor.toJson (t : ToolDescriptor) : JsVal :=
  .obj [("name", .str t.name), ("description", .str t.description),
    ("inputSchema", .obj [("type", .str "object"),
      ("properties", .obj (t.properties.map ParamSchema.toJson)),
      ("required", .arr (t.required.map JsVal.str))])]

/-- The descriptor of `about` (the same in both servers). -/
def aboutDescriptor : ToolDescriptor :=
  { name := "about", description := "Returns information about this MCP server",
    properties := [], required := [] }

/-- The descriptor of `distanceWithHaversine`. -/
def distanceWithHaversineDescriptor : ToolDescriptor :=
  { name := "distanceWithHaversine",
    description := "Calculate the distance between 2 coordinates using the Haversine formula",
    properties := [⟨"lat1", "number", "Latitude of the first point", none⟩,
      ⟨"lon1", "number", "Longitude of the first point", none⟩,
      ⟨"lat2", "number", "Latitude of the second point", none⟩,
      ⟨"lon2", "number", "Longitude of the second point", none⟩],
    required := ["lat1", "lon1", "lat2", "lon2"] }

/-- The descriptor of `reverse_geocode`. -/
def reverseGeocodeDescriptor : ToolDescriptor :=
  { name := "reverse_geocode", description := "For a given lat and lon give the address",
    properties := [⟨"lat", "number", "Latitude of the  point", none⟩,
      ⟨"lon", "number", "Longitude of the point", none⟩],
    required := ["lat", "lon"] }

/-- The descriptor of `geocode`. -/
def geocodeDescriptor : ToolDescriptor :=
  { name := "geocode", description := "For a given address, provide the latitude and longitude",
    properties := [⟨"address", "string", "The address to geocode", none⟩],
    required := ["address"] }

/-- The descriptor of `routeDistance`. -/
def routeDistanceDescriptor : ToolDescriptor :=
  { name := "routeDistance",
    description := "Calculate the route distance between two coordinates using the OSRM API",
    properties := [⟨"lat1", "number", "Latitude of the first point", none⟩,
      ⟨"lon1", "number", "Longitude of the first point", none⟩,
      ⟨"lat2", "number", "Latitude of the second point", none⟩,
      ⟨"lon2", "number", "Longitude of the second point", none⟩],
    required := ["lat1", "lon1", "lat2", "lon2"] }

/-- The descriptor of `list_events`. -/
def listEventsDescriptor : ToolDescriptor :=
  { name := "list_events",
    description := "Retrieve events near a specific location within a date range.",
    properties := [⟨"latitude", "number", "Latitude of the center point for event search", none⟩,
      ⟨"longitude", "number", "Longitude of the center point for event search", none⟩,
      ⟨"radius", "number", "Search radius in meters (default: 5000)",
        some (.num (JsNum.ofNat 5000))⟩,
      ⟨"start_date", "string", "Start date in YYYY-MM-DD format", none⟩,
      ⟨"end_date", "string", "End date in YYYY-MM-DD format", none⟩],
    required := ["latitude", "longitude", "start_date", "end_date"] }

/-- `TOOLS` of `nominatim.js`. -/
def nominatimTOOLS : List ToolDescriptor :=
  [aboutDescriptor, distanceWithHaversineDescriptor, reverseGeocodeDescriptor,
    geocodeDescriptor, routeDistanceDescriptor]

/-- `TOOLS` of `bayerncloud.js`. -/
def bayerncloudTOOLS : List ToolDescriptor := [aboutDescriptor, listEventsDescriptor]

/-! ## `nominatim.js` -/

/-- The helper `haversine(lat1, lon1, lat2, lon2)` of the `distanceWithHaversine`
handler, over the arithmetic `M`. -/
def haversine {N : Type} (M : JsMath N) (lat1 lon1 lat2 lon2 : N) : N :=
  let toRadians := fun (degree : N) => M.div (M.mul degree M.PI) (M.ofNat 180)
  let R := M.ofNat 6371
  let dLat := toRadians (M.sub lat2 lat1)
  let dLon := toRadians (M.sub lon2 lon1)
  let a :=
    M.add (M.mul (M.sin (M.div dLat (M.ofNat 2))) (M.sin (M.div dLat (M.ofNat 2))))
      (M.mul
        (M.mul (M.mul (M.cos (toRadians lat1)) (M.cos (toRadians lat2)))
          (M.sin (M.div dLon (M.ofNat 2))))
        (M.sin (M.div dLon (M.ofNat 2))))
  let c := M.mul (M.ofNat 2) (M.atan2 (M.sqrt a) (M.sqrt (M.sub (M.ofNat 1) a)))
  M.mul R c

/-- The comparison `v > 0`. -/
def greaterThanZero (P : Platform) (v : JsVal) : Except Thrown Bool :=
  (v.toNumber P.stringToNumber).map JsNum.isPositive

/-- The destructuring `const \x7b ... \x7d = args` of a handler: the only value of `args`
that makes it throw is `null` (`args` defaults to an empty object when absent). -/
def argOf (args : JsVal) (k : String) : Except Thrown JsVal :=
  match args with
  | .null => .error ⟨"Cannot destructure property '" ++ k ++ "' of 'args' as it is null."⟩
  | .undefined => .ok .undefined
  | _ => args.get k

/-- The `about` answer of `nominatim.js`. -/
def nominatimAbout : JsVal :=
  contentEnvelope [textItem
    "This is a OSM MCP server (version 1.0.0).\n\nIt serves as a yatis for building Claude integrations."]

/-- The `distanceWithHaversine` handler. The arithmetic of `haversine` converts each
argument with `ToNumber`. -/
def distanceWithHaversineTool (P : Platform) (args : JsVal) : Except Thrown JsVal := do
  let lat1 ← argOf args "lat1"
  let lon1 ← argOf args "lon1"
  let lat2 ← argOf args "lat2"
  let lon2 ← argOf args "lon2"
  if !lat1.truthy || !lon1.truthy || !lat2.truthy || !lon2.truthy then
    pure (errorEnvelope (-32602) "Missing required parameters: lat1, lon1, lat2, lon2")
  else
    let y2 ← lat2.toNumber P.stringToNumber
    let y1 ← lat1.toNumber P.stringToNumber
    let x2 ← lon2.toNumber P.stringToNumber
    let x1 ← lon1.toNumber P.stringToNumber
    let distance := haversine (binary64Math P) y1 x1 y2 x2
    pure (contentEnvelope [textItem
      ("The distance between the two points is " ++ distance.toFixed2 ++ " kilometers.")])

/-- A request `fetch(url)`. -/
def getRequest (url : String) : HttpRequest :=
  { method := "GET", url := url, headers := [], body := none }

/-- The local function `fetchAddress`, from the URL on: every failure inside its `try`
gives `"Error fetching address"`. -/
def fetchAddress (P : Platform) (url : String) : JsVal :=
  match P.fetch (getRequest url) with
  | .failed _ => .str "Error fetching address"
  | .response status json =>
    if !statusOk status then .str "Error fetching address"
    else
      match json with
      | .error _ => .str "Error fetching address"
      | .ok data =>
        match data.get "display_name" with
        | .error _ => .str "Error fetching address"
        | .ok name => name.or (.str "Address not found")

/-- What a handler does before its HTTP request: it throws, returns early, or goes on
with the URL to fetch. -/
inductive Prelude
  | answer (response : JsVal)
  | url (u : String)

/-- The URL of `fetchAddress`, from the printed coordinates. -/
def reverseUrl (env : Env) (lat lon : String) : String :=
  envOr env.NOMINATIM_BASE_URL "https://nominatim.openstreetmap.org"
    ++ "/reverse?format=json&lat=" ++ lat ++ "&lon=" ++ lon

/-- The `reverse_geocode` handler up to the URL of `fetchAddress`. -/
def reverseGeocodePrelude (env : Env) (args : JsVal) : Except Thrown Prelude := do
  let lat ← argOf args "lat"
  let lon ← argOf args "lon"
  if !lat.truthy || !lon.truthy then
    pure (.answer (errorEnvelope (-32602) "Missing required parameters: lat, lon"))
  else
    let slat ← lat.toStr
    let slon ← lon.toStr
    pure (.url (reverseUrl env slat slon))

/-- The `reverse_geocode` handler. -/
def reverseGeocodeTool (env : Env) (P : Platform) (args : JsVal) : Run :=
  match reverseGeocodePrelude env args with
  | .error e => (.error e, [])
  | .ok (.answer r) => (.ok r, [])
  | .ok (.url u) =>
    ((fetchAddress P u).toStr.map fun address =>
      contentEnvelope [textItem ("The address is: " ++ address)], [getRequest u])

/-- The body of the `try` of `fetchCoordinates` after a response with `ok`. -/
def coordinatesOf (P : Platform) (data : JsVal) : Except Thrown JsVal := do
  let length ← data.get "length"
  if ← greaterThanZero P length then
    let first ← data.get "0"
    let lat ← first.get "lat"
    let lon ← first.get "lon"
    let name ← first.get "display_name"
    pure (.obj [("latitude", lat), ("longitude", lon), ("display_name", name)])
  else
    pure (.str "Address not found")

/-- The local function `fetchCoordinates`, from the URL on. -/
def fetchCoordinates (P : Platform) (url : String) : JsVal :=
  match P.fetch (getRequest url) with
  | .failed _ => .str "Error fetching geocode"
  | .response status json =>
    if !statusOk status then .str "Error fetching geocode"
    else
      match json with
      | .error _ => .str "Error fetching geocode"
      | .ok data =>
        match coordinatesOf P data with
        | .error _ => .str "Error fetching geocode"
        | .ok result => result

/-- The URL of `fetchCoordinates`, from the encoded address. -/
def searchUrl (env : Env) (encoded : String) : String :=
  envOr env.NOMINATIM_BASE_URL "https://nominatim.openstreetmap.org"
    ++ "/search?format=json&q=" ++ encoded

/-- The `geocode` handler up to the URL of `fetchCoordinates`. The URL is built before
the `try` of `fetchCoordinates`: an exception of `encodeURIComponent` leaves the
handler. -/
def geocodePrelude (env : Env) (P : Platform) (args : JsVal) : Except Thrown Prelude := do
  let address ← argOf args "address"
  if !address.truthy then
    pure (.answer (errorEnvelope (-32602) "Missing required parameter: address"))
  else
    let s ← address.toStr
    let encoded ← P.encodeURIComponent s
    pure (.url (searchUrl env encoded))

/-- The end of the `geocode` handler: the text for the result of `fetchCoordinates`. -/
def geocodeAnswer (result : JsVal) : Except Thrown JsVal :=
  match result with
  | .str s => pure (contentEnvelope [textItem s])
  | _ => do
    let latitude ← (← result.get "latitude").toStr
    let longitude ← (← result.get "longitude").toStr
    let name ← (← result.get "display_name").toStr
    pure (contentEnvelope [textItem ("The coordinates for the address are: Latitude " ++ latitude
      ++ ", Longitude " ++ longitude ++ ". Address: " ++ name)])

/-- The `geocode` handler. -/
def geocodeTool (env : Env) (P : Platform) (args : JsVal) : Run :=
  match geocodePrelude env P args with
  | .error e => (.error e, [])
  | .ok (.answer r) => (.ok r, [])
  | .ok (.url u) => (geocodeAnswer (fetchCoordinates P u), [getRequest u])

/-- The body of the `try` of `fetchRouteDistance` after a response with `ok`. -/
def routeDistanceOf (P : Platform) (data : JsVal) : Except Thrown JsVal := do
  let routes ← data.get "routes"
  if !routes.truthy then throw ⟨"No route found"⟩
  else
    let length ← routes.get "length"
    if ← greaterThanZero P length then
      let first ← routes.get "0"
      first.get "distance"
    else throw ⟨"No route found"⟩

/-- The local function `fetchRouteDistance`, from the URL on: every failure inside its
`try` gives `null`. -/
def fetchRouteDistance (P : Platform) (url : String) : JsVal :=
  match P.fetch (getRequest url) with
  | .failed _ => .null
  | .response status json =>
    if !statusOk status then .null
    else
      match json with
      | .error _ => .null
      | .ok data =>
        match routeDistanceOf P data with
        | .error _ => .null
        | .ok distance => distance

/-- The URL of `fetchRouteDistance`, from the printed coordinates. -/
def routeUrl (env : Env) (lat1 lon1 lat2 lon2 : String) : String :=
  envOr env.OSRM_BASE_URL "http://router.project-osrm.org/" ++ "/route/v1/driving"
    ++ "/" ++ lon1 ++ "," ++ lat1 ++ ";" ++ lon2 ++ "," ++ lat2 ++ "?overview=false"

/-- The `routeDistance` handler up to the URL of `fetchRouteDistance`. -/
def routeDistancePrelude (env : Env) (args : JsVal) : Except Thrown Prelude := do
  let lat1 ← argOf args "lat1"
  let lon1 ← argOf args "lon1"
  let lat2 ← argOf args "lat2"
  let lon2 ← argOf args "lon2"
  if !lat1.truthy || !lon1.truthy || !lat2.truthy || !lon2.truthy then
    pure (.answer (errorEnvelope (-32602) "Missing required parameters: lat1, lon1, lat2, lon2"))
  else
    let slat1 ← lat1.toStr
    let slon1 ← lon1.toStr
    let slat2 ← lat2.toStr
    let slon2 ← lon2.toStr
    pure (.url (routeUrl env slat1 slon1 slat2 slon2))

/-- The end of the `routeDistance` handler: the text for the result of
`fetchRouteDistance`. -/
def routeDistanceAnswer (P : Platform) (distance : JsVal) : Except Thrown JsVal :=
  match distance with
  | .null => pure (contentEnvelope [textItem "Could not calculate the route distance."])
  | _ => do
    let d ← distance.toNumber P.stringToNumber
    pure (contentEnvelope [textItem
      ("The route distance is " ++ (d.divNat 1000).toFixed2 ++ " kilometers.")])

/-- The `routeDistance` handler. -/
def routeDistanceTool (env : Env) (P : Platform) (args : JsVal) : Run :=
  match routeDistancePrelude env args with
  | .error e => (.error e, [])
  | .ok (.answer r) => (.ok r, [])
  | .ok (.url u) => (routeDistanceAnswer P (fetchRouteDistance P u), [getRequest u])

/-- The destructuring `const \x7b name, arguments: args = \x7b\x7d \x7d = params || \x7b\x7d`:
the pair of `name` and `args`. -/
def callParams (params : JsVal) : JsVal × JsVal :=
  match params.or (.obj []) with
  | .obj props =>
    (lookup "name" props,
      match lookup "arguments" props with
      | .undefined => .obj []
      | a => a)
  | _ => (.undefined, .obj [])

/-- The answer to a call of a name that no branch handles. -/
def toolNotFound (name : JsVal) : Except Thrown JsVal :=
  name.toStr.map fun s => errorEnvelope (-32601) ("Tool not found: " ++ s)

/-- The `tools/call` branch of `nominatim.js`. -/
def nominatimCall (env : Env) (P : Platform) (name args : JsVal) : Run :=
  match name with
  | .str n =>
    if n = "about" then (.ok nominatimAbout, [])
    else if n = "distanceWithHaversine" then (distanceWithHaversineTool P args, [])
    else if n = "reverse_geocode" then reverseGeocodeTool env P args
    else if n = "geocode" then geocodeTool env P args
    else if n = "routeDistance" then routeDistanceTool env P args
    else (toolNotFound name, [])
  | _ => (toolNotFound name, [])

/-- The answer to `initialize`. -/
def initializeResult (serverName : String) : JsVal :=
  .obj [("protocolVersion", .str "2025-04-30"),
    ("capabilities", .obj [("tools", .obj [])]),
    ("serverInfo", .obj [("name", .str serverName), ("version", .str "1.0.0")])]

/-- The body of the outer `try` of `server.fallbackRequestHandler` in `nominatim.js`. -/
def nominatimRun (env : Env) (P : Platform) (request : Request) : Run :=
  if request.method = "initialize" then (.ok (initializeResult "osm-mcp-server"), [])
  else if request.method = "tools/list" then
    (.ok (.obj [("tools", .arr (nominatimTOOLS.map ToolDescriptor.toJson))]), [])
  else if request.method = "tools/call" then
    nominatimCall env P (callParams request.params).1 (callParams request.params).2
  else if request.method = "resources/list" then (.ok (.obj [("resources", .arr [])]), [])
  else if request.method = "prompts/list" then (.ok (.obj [("prompts", .arr [])]), [])
  else (.ok (.obj []), [])

/-- `server.fallbackRequestHandler` of `nominatim.js`. -/
def nominatimHandler (env : Env) (P : Platform) (request : Request) : Reply :=
  (nominatimRun env P request).toReply

/-! ## `bayerncloud.js` -/

/-- The helper `formatAddress(address)`. -/
def formatAddress (address : JsVal) : Except Thrown JsVal :=
  if !address.truthy then pure (.str "No address available")
  else do
    let streetAddress ← address.get "streetAddress"
    let postalCode ← address.get "postalCode"
    let addressLocality ← address.get "addressLocality"
    let parts := if streetAddress.truthy then [streetAddress] else []
    let cityPart ←
      if postalCode.truthy && addressLocality.truthy then
        joinItems " " ([postalCode, addressLocality].filter JsVal.truthy)
      else pure ""
    let parts := if cityPart != "" then parts ++ [.str cityPart] else parts
    let joined ← joinItems ", " parts
    pure ((JsVal.str joined).or (.str "No address details"))

/-- One of the two date entries of `getScheduleInfo` for a schedule:
`date && time ? date + "T" + time : date || null`. -/
def scheduleDateTime (date time : JsVal) : Except Thrown JsVal :=
  if date.truthy && time.truthy then do
    let d ← date.toStr
    let t ← time.toStr
    pure (.str (d ++ "T" ++ t))
  else pure (date.or .null)

/-- The helper `getScheduleInfo(event)`. -/
def getScheduleInfo (P : Platform) (event : JsVal) : Except Thrown JsVal := do
  let eventSchedule ← event.get "eventSchedule"
  let useSchedule ←
    if eventSchedule.truthy then greaterThanZero P (← eventSchedule.get "length") else pure false
  if useSchedule then
    let schedule ← eventSchedule.get "0"
    let startDateTime ← scheduleDateTime (← schedule.get "startDate") (← schedule.get "startTime")
    let endDateTime ← scheduleDateTime (← schedule.get "endDate") (← schedule.get "endTime")
    let timezone ← schedule.get "scheduleTimezone"
    pure (.obj [("startDateTime", startDateTime), ("endDateTime", endDateTime),
      ("timezone", timezone.or (.str "Europe/Vienna"))])
  else
    let startDate ← event.get "startDate"
    let endDate ← event.get "endDate"
    pure (.obj [("startDateTime", startDate.or .null), ("endDateTime", endDate.or .null)])

/-- The `locationInfo` of the callback of `events.map`. -/
def locationInfoOf (P : Platform) (event : JsVal) : Except Thrown JsVal := do
  let location ← event.get "location"
  let hasLocation ←
    if location.truthy then greaterThanZero P (← location.get "length") else pure false
  if hasLocation then
    let first ← location.get "0"
    let name ← first.get "name"
    let address ← first.get "address"
    let formatted ← if address.truthy then formatAddress address else pure (.str "No address available")
    let geo ← first.get "geo"
    let geoInfo ←
      if geo.truthy then do
        let latitude ← geo.get "latitude"
        let longitude ← geo.get "longitude"
        pure (JsVal.obj [("latitude", latitude), ("longitude", longitude)])
      else pure JsVal.null
    pure (.obj [("name", name.or (.str "Unknown venue")), ("address", formatted), ("geo", geoInfo)])
  else
    pure (.obj [("name", .str "Unknown location"), ("address", .str "No address available"),
      ("geo", .null)])

/-- The callback of `events.map`: the projection of one event record. -/
def projectEvent (P : Platform) (event : JsVal) : Except Thrown JsVal := do
  let locationInfo ← locationInfoOf P event
  let scheduleInfo ← getScheduleInfo P event
  let id ← event.get "@id"
  let name ← event.get "name"
  let description ← event.get "description"
  let startDate ← event.get "startDate"
  let endDate ← event.get "endDate"
  pure (.obj [("id", id.or (.str "Unknown ID")),
    ("title", name.or (.str "Unnamed Event")),
    ("description", description.or (.str "No description available")),
    ("location", locationInfo),
    ("startDate", (startDate.or (lookup "startDateTime" (match scheduleInfo with
      | .obj props => props
      | _ => []))).or (.str "Unknown start date")),
    ("endDate", (endDate.or (lookup "endDateTime" (match scheduleInfo with
      | .obj props => props
      | _ => []))).or (.str "Unknown end date"))])

/-- `events.map(callback)`: the projections in order; the first exception ends it. -/
def projectEvents (P : Platform) : List JsVal → Except Thrown (List JsVal)
  | [] => pure []
  | event :: rest => do
    let first ← projectEvent P event
    let others ← projectEvents P rest
    pure (first :: others)

/-- The `else` branch of the inner `try` of `list_events`: the events of a response
with `ok`. Calling `map` on a value that is not an array throws. -/
def eventsOf (P : Platform) (data : JsVal) : Except Thrown (List JsVal) := do
  let graph ← data.get "@graph"
  match graph.or (.arr []) with
  | .arr items => projectEvents P items
  | _ => throw ⟨"events.map is not a function"⟩

/-- The inner `try`/`catch` of `list_events`: the events after the request; every
failure gives the empty list. (Of a response without `ok` the source reads the text
only to log it.) -/
def fetchEvents (P : Platform) (request : HttpRequest) : List JsVal :=
  match P.fetch request with
  | .failed _ => []
  | .response status json =>
    if !statusOk status then []
    else
      match json with
      | .error _ => []
      | .ok data =>
        match eventsOf P data with
        | .error _ => []
        | .ok events => events

/-- The request `list_events` sends. -/
def listEventsRequest (env : Env) (latitude longitude radius startDate endDate : JsVal) :
    HttpRequest :=
  { method := "POST",
    url := envOr env.BAYERN_CLOUD_API_URL "https://data.bayerncloud.digital/api/v4/endpoints"
      ++ "/list_events",
    headers := [("Content-Type", "application/json")],
    body := some (.obj [("token", .str env.BCT_API_TOKEN),
      ("include", .str "location,eventSchedule"),
      ("filter", .obj [
        ("linked", .obj [("location", .obj [("geo", .obj [("in", .obj [
          ("perimeter", .arr [longitude, latitude, radius])])])])]),
        ("schedule", .obj [("in", .obj [("min", startDate), ("max", endDate)])])])]) }

/-- The summary line of `list_events`. -/
def listEventsSummary (count : Nat) (latitude longitude startDate endDate : JsVal) :
    Except Thrown String := do
  let slat ← latitude.toStr
  let slon ← longitude.toStr
  let sstart ← startDate.toStr
  let send ← endDate.toStr
  if 0 < count then
    pure ("Found " ++ (JsNum.ofNat count).toStr ++ " events near [" ++ slat ++ ", " ++ slon
      ++ "] from " ++ sstart ++ " to " ++ send ++ ".")
  else
    pure ("No events found near [" ++ slat ++ ", " ++ slon ++ "] from " ++ sstart ++ " to "
      ++ send ++ ".")

/-- The line `list_events` logs before its request (outside the inner `try` blocks:
a value without a string conversion makes the handler throw here). -/
def listEventsLog (latitude longitude startDate endDate : JsVal) : Except Thrown String := do
  let slat ← latitude.toStr
  let slon ← longitude.toStr
  let sstart ← startDate.toStr
  let send ← endDate.toStr
  pure ("Retrieving events near [" ++ slat ++ ", " ++ slon ++ "] from " ++ sstart ++ " to "
    ++ send)

/-- The `list_events` handler after its parameter check. -/
def listEventsBody (env : Env) (P : Platform)
    (latitude longitude radius startDate endDate : JsVal) : Run :=
  match listEventsLog latitude longitude startDate endDate with
  | .error e => (.error e, [])
  | .ok _ =>
    let request := listEventsRequest env latitude longitude radius startDate endDate
    let events := fetchEvents P request
    (match listEventsSummary events.length latitude longitude startDate endDate with
      | .ok resultText =>
        .ok (contentEnvelope [textItem resultText, textItem (jsonStringify2 (.arr events))])
      | .error e => .ok (contentEnvelope [textItem ("Error retrieving events: " ++ e.message)]),
      [request])

/-- The default of the destructuring `radius = 5000`. -/
def radiusOrDefault (radius : JsVal) : JsVal :=
  match radius with
  | .undefined => .num (JsNum.ofNat 5000)
  | r => r

/-- The `list_events` handler. -/
def listEventsTool (env : Env) (P : Platform) (args : JsVal) : Run :=
  match (do
    let latitude ← argOf args "latitude"
    let longitude ← argOf args "longitude"
    let radius ← argOf args "radius"
    let startDate ← argOf args "start_date"
    let endDate ← argOf args "end_date"
    pure (latitude, longitude, radius, startDate, endDate)) with
  | .error e => (.error e, [])
  | .ok (latitude, longitude, radius, startDate, endDate) =>
    if !latitude.truthy || !longitude.truthy || !startDate.truthy || !endDate.truthy then
      (.ok (errorEnvelope (-32602)
        "Missing required parameters: latitude, longitude, start_date, end_date"), [])
    else
      listEventsBody env P latitude longitude (radiusOrDefault radius) startDate endDate

/-- The `about` answer of `bayerncloud.js`. -/
def bayerncloudAbout : JsVal :=
  contentEnvelope [textItem
    "This is a Bayern Cloud MCP server (version 1.0.0).\n\nIt provides access to touristic information from the Bayern Cloud API."]

/-- The `tools/call` branch of `bayerncloud.js`. -/
def bayerncloudCall (env : Env) (P : Platform) (name args : JsVal) : Run :=
  match name with
  | .str n =>
    if n = "about" then (.ok bayerncloudAbout, [])
    else if n = "list_events" then listEventsTool env P args
    else (toolNotFound name, [])
  | _ => (toolNotFound name, [])

/-- The body of the outer `try` of `server.fallbackRequestHandler` in `bayerncloud.js`. -/
def bayerncloudRun (env : Env) (P : Platform) (request : Request) : Run :=
  if request.method = "initialize" then (.ok (initializeResult "bayerncloud-mcp-server"), [])
  else if request.method = "tools/list" then
    (.ok (.obj [("tools", .arr (bayerncloudTOOLS.map ToolDescriptor.toJson))]), [])
  else if request.method = "tools/call" then
    bayerncloudCall env P (callParams request.params).1 (callParams request.params).2
  else if request.method = "resources/list" then (.ok (.obj [("resources", .arr [])]), [])
  else if request.method = "prompts/list" then (.ok (.obj [("prompts", .arr [])]), [])
  else (.ok (.obj []), [])

/-- `server.fallbackRequestHandler` of `bayerncloud.js`. -/
def bayerncloudHandler (env : Env) (P : Platform) (request : Request) : Reply :=
  (bayerncloudRun env P request).toReply

/-! ## Predicates and inputs the theorems use -/

/-- A `tools/call` request for the tool `name` with the arguments `args`. -/
def toolsCall (name : String) (args : JsVal) : Request :=
  { method := "tools/call", params := .obj [("name", .str name), ("arguments", args)],
    id := .num (JsNum.ofNat 1) }

/-- Whether a string is a number printed with exactly two decimals: an optional minus
sign, one or more decimal digits, a point, and two decimal digits. -/
def hasTwoDecimals (s : String) : Bool :=
  match (match s.data with
    | [] => []
    | c :: rest => if c = '-' then rest else c :: rest).reverse with
  | d2 :: d1 :: p :: whole =>
    d2.isDigit && d1.isDigit && p == '.' && !whole.isEmpty && whole.all Char.isDigit
  | _ => false

/-- Whether a number is finite and of absolute value below `10^k`. -/
def JsNum.absBelowPow10 (x : JsNum) (k : Nat) : Bool :=
  match x with
  | .fin _ m e => !atLeastPow10 m e k
  | _ => false

/-- A platform whose `fetch` answers every request with the given result, whose
`encodeURIComponent` accepts every string and leaves it as it is, and whose `Math`
functions are stand-ins: `sin x = x`, `cos x = 1`, `sqrt x = x`, `atan2(y, x) = y`. -/
def platformAnswering (result : FetchResult) : Platform where
  fetch := fun _ => result
  sin := fun x => x
  cos := fun _ => JsNum.ofNat 1
  sqrt := fun x => x
  atan2 := fun y _ => y
  stringToNumber := fun _ => .nan
  encodeURIComponent := fun s => .ok s

/-- An environment without overrides of the base URLs. -/
def plainEnv : Env :=
  { NOMINATIM_BASE_URL := none, OSRM_BASE_URL := none, BAYERN_CLOUD_API_URL := none,
    BCT_API_TOKEN := "token" }

/-- Arguments of `routeDistance` from Munich (48, 11) to (49, 12). -/
def sampleRouteArgs : List (String × JsVal) :=
  [("lat1", .num (JsNum.ofNat 48)), ("lon1", .num (JsNum.ofNat 11)),
    ("lat2", .num (JsNum.ofNat 49)), ("lon2", .num (JsNum.ofNat 12))]

/-- A routing response with status 200 and the body `\x7broutes: [\x7bdistance\x7d]\x7d`. -/
def routeResponse (distance : JsNum) : FetchResult :=
  .response 200 (.ok (.obj [("routes", .arr [.obj [("distance", .num distance)]])]))


/-- The match of the specification's `geocode` scenario. -/
def marienplatzMatch : JsVal :=
  .obj [("lat", .str "48.137"), ("lon", .str "11.575"),
    ("display_name", .str "Marienplatz, Munich, Germany")]

/-- A geocoding response with status 200 and the one match `marienplatzMatch`. -/
def marienplatzResponse : FetchResult := .response 200 (.ok (.arr [marienplatzMatch]))

/-- The `error.code` of a response, when it has an `error` with a numeric `code`. -/
def errorCode (response : JsVal) : Option JsNum :=
  match response with
  | .obj props =>
    (match lookup "error" props with
      | .obj error =>
        (match lookup "code" error with
          | .num code => some code
          | _ => none)
      | _ => none)
  | _ => none

/-- The `error.message` of a response, when it has an `error` with a string `message`. -/
def errorMessage (response : JsVal) : Option String :=
  match response with
  | .obj props =>
    (match lookup "error" props with
      | .obj error =>
        (match lookup "message" error with
          | .str message => some message
          | _ => none)
      | _ => none)
  | _ => none

/-- A non-empty list of content items of type `text`. -/
def IsTextItems (items : List JsVal) : Prop :=
  items ≠ [] ∧ ∀ item ∈ items, ∃ text, item = textItem text

/-- A run that got past the parameter check of its tool: it returns a success
envelope or throws. -/
def Run.Answered (r : Run) : Prop :=
  (∃ items, r.1 = .ok (contentEnvelope items) ∧ IsTextItems items) ∨ ∃ e, r.1 = .error e

/-- A run that ends at the parameter check of its tool: the `-32602` envelope with the
given message, and no request sent. -/
def Run.Rejected (message : String) (r : Run) : Prop :=
  r = (.ok (errorEnvelope (-32602) message), [])

/-- A response with exactly one of the keys `content` and `error`: either `content` is
a non-empty list of text items, or `error` has an integer `code` and a string
`message`. -/
def IsEnvelope (response : JsVal) : Prop :=
  ∃ props, response = .obj props ∧
    ((hasKey "content" props = true ∧ hasKey "error" props = false ∧
        ∃ items, lookup "content" props = .arr items ∧ IsTextItems items)
      ∨ (hasKey "error" props = true ∧ hasKey "content" props = false ∧
        ∃ (code : Int) (message : String),
          (lookup "error" props).get "code" = .ok (.num (JsNum.ofInt code)) ∧
          (lookup "error" props).get "message" = .ok (.str message)))

/-- The value of `name` for a tool name that is given, or absent. -/
def nameValue (name : Option String) : JsVal :=
  match name with
  | some n => .str n
  | none => .undefined

/-- Whether every parameter in `required` is truthy in the arguments. -/
def requiredPresent (required : List String) (props : List (String × JsVal)) : Bool :=
  required.all fun k => (lookup k props).truthy

/-- The message of the `-32602` envelope of a tool, as the sources write it: all
the names of `required`, joined by a comma and a space, after "Missing required
parameters: ", or after "Missing required parameter: " when there is one name. -/
def rejectionMessage (t : ToolDescriptor) : String :=
  (if t.required.length = 1 then "Missing required parameter: "
    else "Missing required parameters: ") ++ ", ".intercalate t.required

/-- Modelled from the spec: the message claim C3 states for a rejected call,
"Missing required parameters: " followed by the comma-joined names of the required
parameters that are missing from the arguments. -/
def missingParametersMessage (t : ToolDescriptor) (props : List (String × JsVal)) : String :=
  "Missing required parameters: "
    ++ ", ".intercalate (t.required.filter fun k => !(lookup k props).truthy)

/-- Arguments of `list_events`: Munich, June 2025. -/
def sampleEventArgs : List (String × JsVal) :=
  [("latitude", .num (JsNum.ofDecimal false 48137 (-3))),
    ("longitude", .num (JsNum.ofDecimal false 11575 (-3))),
    ("start_date", .str "2025-06-01"), ("end_date", .str "2025-06-30")]

/-- Modelled from the spec: the projected date as claim C10 states it. `own` is the
event's own date, `entryDate` and `entryTime` are the date and the time of the first
schedule entry (`undefined` where there is none) and `sdate`, `stime` their printed
forms: the own date when it is present and non-empty; otherwise, when the first entry
has the date, the date and the time joined by "T" if it also has the time and the
date alone if not; otherwise the fallback. -/
def resolvedDate (own entryDate entryTime : JsVal) (sdate stime fallback : String) : JsVal :=
  if own.truthy then own
  else if entryDate.truthy then
    (if entryTime.truthy then .str (sdate ++ "T" ++ stime) else entryDate)
  else .str fallback

/-- An event record with a two-entry schedule and no dates of its own. -/
def sampleEvent : List (String × JsVal) :=
  [("@id", .str "https://data.bayerncloud.digital/things/1"), ("name", .str "Konzert"),
    ("eventSchedule", .arr [
      .obj [("startDate", .str "2025-06-01"), ("startTime", .str "19:00"),
        ("endDate", .str "2025-06-01")],
      .obj [("startDate", .str "2025-06-08"), ("startTime", .str "20:00")]])]

/-- The arguments `sampleRouteArgs` with the two points swapped. -/
def swappedRouteArgs : List (String × JsVal) :=
  [("lat1", .num (JsNum.ofNat 49)), ("lon1", .num (JsNum.ofNat 12)),
    ("lat2", .num (JsNum.ofNat 48)), ("lon2", .num (JsNum.ofNat 11))]

/-- The sign laws of an arithmetic with the negation `neg`: negation is an involution
that multiplication, division and `sin` carry outwards, multiplication is commutative,
and swapping the operands of a subtraction negates the difference (or leaves it as it
is, as for a difference that is zero). The binary64 arithmetic has them on a platform
whose `Math.sin` is odd. -/
def JsMath.SignSymmetric {N : Type} (M : JsMath N) (neg : N → N) : Prop :=
  (∀ a, neg (neg a) = a)
    ∧ (∀ a b, M.sub a b = neg (M.sub b a) ∨ M.sub a b = M.sub b a)
    ∧ (∀ a b, M.mul (neg a) b = neg (M.mul a b))
    ∧ (∀ a b, M.mul a b = M.mul b a)
    ∧ (∀ a b, M.div (neg a) b = neg (M.div a b))
    ∧ (∀ a, M.sin (neg a) = neg (M.sin a))

/-- A response of the events API with status 200 and the one record `sampleEvent`. -/
def sampleGraphResponse : FetchResult :=
  .response 200 (.ok (.obj [("@graph", .arr [.obj sampleEvent])]))

/-- The projection of `sampleEvent`. -/
def sampleProjection : JsVal :=
  .obj [("id", .str "https://data.bayerncloud.digital/things/1"),
    ("title", .str "Konzert"),
    ("description", .str "No description available"),
    ("location", .obj [("name", .str "Unknown location"),
      ("address", .str "No address available"), ("geo", .null)]),
    ("startDate", .str "2025-06-01T19:00"),
    ("endDate", .str "2025-06-01")]

/-- A response of the events API with status 200 and one record that has a start date
of its own and the schedule `[null]`. -/
def nullScheduleResponse : FetchResult :=
  .response 200 (.ok (.obj [("@graph", .arr [
    .obj [("startDate", .str "2025-06-02"), ("eventSchedule", .arr [.null])]])]))

/-! ## The fields of the descriptors -/

@[simp] theorem aboutDescriptor_name : aboutDescriptor.name = "about" := rfl

@[simp] theorem aboutDescriptor_required : aboutDescriptor.required = [] := rfl

@[simp] theorem distanceWithHaversineDescriptor_name :
    distanceWithHaversineDescriptor.name = "distanceWithHaversine" := rfl

@[simp] theorem distanceWithHaversineDescriptor_required :
    distanceWithHaversineDescriptor.required = ["lat1", "lon1", "lat2", "lon2"] := rfl

@[simp] theorem reverseGeocodeDescriptor_name :
    reverseGeocodeDescriptor.name = "reverse_geocode" := rfl

@[simp] theorem reverseGeocodeDescriptor_required :
    reverseGeocodeDescriptor.required = ["lat", "lon"] := rfl

@[simp] theorem geocodeDescriptor_name : geocodeDescriptor.name = "geocode" := rfl

@[simp] theorem geocodeDescriptor_required : geocodeDescriptor.required = ["address"] := rfl

@[simp] theorem routeDistanceDescriptor_name :
    routeDistanceDescriptor.name = "routeDistance" := rfl

@[simp] theorem routeDistanceDescriptor_required :
    routeDistanceDescriptor.required = ["lat1", "lon1", "lat2", "lon2"] := rfl

@[simp] theorem listEventsDescriptor_name : listEventsDescriptor.name = "list_events" := rfl

@[simp] theorem listEventsDescriptor_required :
    listEventsDescriptor.required = ["latitude", "longitude", "start_date", "end_date"] := rfl

/-! ## Lemmas on the printing of numbers -/

theorem digitChar_isDigit (d : Nat) : (digitChar d).isDigit = true := by
  unfold digitChar
  split <;> decide

theorem natDigitsAux_spec (fuel : Nat) : ∀ (n : Nat) (acc : List Char),
    ∃ ds, natDigitsAux fuel n acc = ds ++ acc ∧ (∀ c ∈ ds, c.isDigit = true) ∧
      (0 < fuel → ds ≠ []) := by
  induction fuel with
  | zero => intro n acc; exact ⟨[], by simp [natDigitsAux]⟩
  | succ fuel ih =>
    intro n acc
    unfold natDigitsAux
    split
    · exact ⟨[digitChar n], by simp, by simp [digitChar_isDigit], by simp⟩
    · obtain ⟨ds, h1, h2, _⟩ := ih (n / 10) (digitChar (n % 10) :: acc)
      refine ⟨ds ++ [digitChar (n % 10)], by simp [h1], ?_, by simp⟩
      intro c hc
      rcases List.mem_append.mp hc with h | h
      · exact h2 c h
      · simp at h; subst h; exact digitChar_isDigit _

theorem natDigits_spec (n : Nat) :
    natDigits n ≠ [] ∧ ∀ c ∈ natDigits n, c.isDigit = true := by
  obtain ⟨ds, h1, h2, h3⟩ := natDigitsAux_spec (n + 1) n []
  simp only [List.append_nil] at h1
  unfold natDigits
  rw [h1]
  exact ⟨h3 (Nat.succ_pos n), h2⟩

theorem hasTwoDecimals_of_digits (neg : Bool) (ds : List Char) (a b : Nat)
    (hne : ds ≠ []) (hds : ∀ c ∈ ds, c.isDigit = true) :
    hasTwoDecimals ((if neg then "-" else "") ++ String.mk ds ++ "."
      ++ String.mk [digitChar a, digitChar b]) = true := by
  obtain ⟨d0, ds1, rfl⟩ := List.exists_cons_of_ne_nil hne
  have hd0 : d0.isDigit = true := hds d0 (by simp)
  have hd0m : d0 ≠ '-' := by
    intro h; rw [h] at hd0; exact absurd hd0 (by decide)
  cases neg
  · simp [hasTwoDecimals, String.data_append, hd0m, digitChar_isDigit]
    exact ⟨fun x hx => hds x (by simp [hx]), hd0⟩
  · simp [hasTwoDecimals, String.data_append, hd0m, digitChar_isDigit]
    exact ⟨fun x hx => hds x (by simp [hx]), hd0⟩

/-- A finite number below `10^21` in absolute value is printed by `toFixed(2)` with
exactly two decimals. -/
theorem toFixed2_hasTwoDecimals (x : JsNum) (h : x.absBelowPow10 21 = true) :
    hasTwoDecimals x.toFixed2 = true := by
  cases x with
  | fin neg m e =>
    have h1 : atLeastPow10 m e 21 = false := by simpa [JsNum.absBelowPow10] using h
    simp only [JsNum.toFixed2, h1, Bool.false_eq_true, if_false]
    have hs := natDigits_spec (roundHundredths m e / 100)
    exact hasTwoDecimals_of_digits (neg && m != 0) _ _ _ hs.1 hs.2
  | inf neg => simp [JsNum.absBelowPow10] at h
  | nan => simp [JsNum.absBelowPow10] at h

/-! ## Lemmas on the steps of the handlers -/

@[simp] theorem argOf_obj (props : List (String × JsVal)) (k : String) :
    argOf (.obj props) k = .ok (lookup k props) := rfl

theorem greaterThanZero_length (P : Platform) (n : Nat) :
    greaterThanZero P (.num (JsNum.ofNat (n + 1))) = .ok true := by
  simp [greaterThanZero, JsVal.toNumber, JsNum.ofNat, JsNum.isPositive, Except.map]

theorem greaterThanZero_zero (P : Platform) :
    greaterThanZero P (.num (JsNum.ofNat 0)) = .ok false := by
  simp [greaterThanZero, JsVal.toNumber, JsNum.ofNat, JsNum.isPositive, Except.map]

/-- The `routeDistance` handler with four truthy coordinates reaches its request. -/
theorem routeDistancePrelude_ok (env : Env) (args : List (String × JsVal))
    (slat1 slon1 slat2 slon2 : String)
    (t1 : (lookup "lat1" args).truthy = true) (t2 : (lookup "lon1" args).truthy = true)
    (t3 : (lookup "lat2" args).truthy = true) (t4 : (lookup "lon2" args).truthy = true)
    (s1 : (lookup "lat1" args).toStr = .ok slat1) (s2 : (lookup "lon1" args).toStr = .ok slon1)
    (s3 : (lookup "lat2" args).toStr = .ok slat2) (s4 : (lookup "lon2" args).toStr = .ok slon2) :
    routeDistancePrelude env (.obj args) = .ok (.url (routeUrl env slat1 slon1 slat2 slon2)) := by
  simp [routeDistancePrelude, bind, Except.bind, pure, Except.pure, t1, t2, t3, t4, s1, s2, s3, s4]

theorem get_arr_length (items : List JsVal) :
    (JsVal.arr items).get "length" = .ok (.num (JsNum.ofNat items.length)) := rfl

theorem get_arr_zero (first : JsVal) (rest : List JsVal) :
    (JsVal.arr (first :: rest)).get "0" = .ok first := rfl

theorem get_nil_zero : (JsVal.arr []).get "0" = .ok .undefined := rfl

/-- The first route's distance is what `fetchRouteDistance` gives for a response with
`ok` and a non-empty `routes`. -/
theorem fetchRouteDistance_first (P : Platform) (url : String) (status : Nat)
    (data first distance : JsVal) (rest : List JsVal)
    (hfetch : P.fetch (getRequest url) = .response status (.ok data))
    (hok : statusOk status = true)
    (hroutes : data.get "routes" = .ok (.arr (first :: rest)))
    (hd : first.get "distance" = .ok distance) :
    fetchRouteDistance P url = distance := by
  simp [fetchRouteDistance, hfetch, hok, routeDistanceOf, hroutes, bind, Except.bind,
    JsVal.truthy, get_arr_length, get_arr_zero, greaterThanZero_length, hd]


/-! ## C11: `routeDistance` -/

/-- C11, as amended. For every `routeDistance` call whose four coordinates are truthy
(and have a string conversion, as numbers and strings do), if the routing request is
answered with a 2xx status and a body whose `routes` is a non-empty list, the first
route having the numeric distance `d`, then the response is the one text item
"The route distance is <k> kilometers." with `<k>` the `toFixed(2)` of the quotient
`d / 1000`; whenever that quotient is finite and below `10^21` in absolute value,
`<k>` is printed with exactly two decimals. The routes after the first do not occur
in the result. -/
theorem routeDistance_first_route_two_decimals (env : Env) (P : Platform) (request : Request)
    (args : List (String × JsVal)) (slat1 slon1 slat2 slon2 : String)
    (status : Nat) (data first : JsVal) (rest : List JsVal) (d : JsNum)
    (hm : request.method = "tools/call")
    (hp : callParams request.params = (.str "routeDistance", .obj args))
    (t1 : (lookup "lat1" args).truthy = true) (t2 : (lookup "lon1" args).truthy = true)
    (t3 : (lookup "lat2" args).truthy = true) (t4 : (lookup "lon2" args).truthy = true)
    (s1 : (lookup "lat1" args).toStr = .ok slat1) (s2 : (lookup "lon1" args).toStr = .ok slon1)
    (s3 : (lookup "lat2" args).toStr = .ok slat2) (s4 : (lookup "lon2" args).toStr = .ok slon2)
    (hfetch : P.fetch (getRequest (routeUrl env slat1 slon1 slat2 slon2))
      = .response status (.ok data))
    (hok : statusOk status = true)
    (hroutes : data.get "routes" = .ok (.arr (first :: rest)))
    (hd : first.get "distance" = .ok (.num d)) :
    (nominatimHandler env P request).response
        = contentEnvelope [textItem
            ("The route distance is " ++ (d.divNat 1000).toFixed2 ++ " kilometers.")]
      ∧ ((d.divNat 1000).absBelowPow10 21 = true
          → hasTwoDecimals (d.divNat 1000).toFixed2 = true) := by
  refine ⟨?_, toFixed2_hasTwoDecimals _⟩
  have hpre := routeDistancePrelude_ok env args slat1 slon1 slat2 slon2 t1 t2 t3 t4 s1 s2 s3 s4
  have hdist := fetchRouteDistance_first P _ status data first (.num d) rest hfetch hok hroutes hd
  simp [nominatimHandler, nominatimRun, hm, hp, nominatimCall, routeDistanceTool, hpre, hdist,
    routeDistanceAnswer, JsVal.toNumber, bind, Except.bind, pure, Except.pure, Run.toReply]

/-- C11, the witness of the specification: `routes: [{distance: 12345}]` gives
"The route distance is 12.35 kilometers.". -/
theorem routeDistance_first_route_two_decimals_witness :
    (nominatimHandler plainEnv (platformAnswering (routeResponse (JsNum.ofNat 12345)))
        (toolsCall "routeDistance" (.obj sampleRouteArgs))).response
      = contentEnvelope [textItem "The route distance is 12.35 kilometers."]
    ∧ hasTwoDecimals "12.35" = true := by
  have h := routeDistance_first_route_two_decimals plainEnv
    (platformAnswering (routeResponse (JsNum.ofNat 12345)))
    (toolsCall "routeDistance" (.obj sampleRouteArgs)) sampleRouteArgs "48" "11" "49" "12" 200
    (.obj [("routes", .arr [.obj [("distance", .num (JsNum.ofNat 12345))]])])
    (.obj [("distance", .num (JsNum.ofNat 12345))]) [] (JsNum.ofNat 12345)
    rfl rfl rfl rfl rfl rfl rfl rfl rfl rfl rfl rfl rfl rfl
  have hk : ((JsNum.ofNat 12345).divNat 1000).toFixed2 = "12.35" := by decide
  rw [hk] at h
  exact ⟨h.1, h.2 (by decide)⟩

set_option maxRecDepth 100000 in
/-- C11, counterexample to the claim as stated: for `routes: [{distance: 1e25}]` the
quotient is `1e22` and `toFixed(2)` prints it in exponent notation, so the text is
"The route distance is 1e+22 kilometers.", which has no two decimals. -/
theorem routeDistance_huge_distance_not_two_decimals :
    (nominatimHandler plainEnv (platformAnswering (routeResponse (JsNum.ofDecimal false 1 25)))
        (toolsCall "routeDistance" (.obj sampleRouteArgs))).response
      = contentEnvelope [textItem "The route distance is 1e+22 kilometers."]
    ∧ hasTwoDecimals "1e+22" = false := by
  exact ⟨by rfl, by decide⟩



/-! ## The outcomes of the tool handlers -/

theorem isTextItems_singleton (text : String) : IsTextItems [textItem text] :=
  ⟨by simp, by simp⟩

theorem answered_content (text : String) (sent : List HttpRequest) :
    Run.Answered (.ok (contentEnvelope [textItem text]), sent) :=
  .inl ⟨_, rfl, isTextItems_singleton text⟩

theorem answered_error (e : Thrown) (sent : List HttpRequest) :
    Run.Answered (.error e, sent) := .inr ⟨e, rfl⟩

theorem answered_map (x : Except Thrown String) (f : String → String)
    (sent : List HttpRequest) :
    Run.Answered (x.map fun s => contentEnvelope [textItem (f s)], sent) := by
  cases x with
  | error e => exact answered_error e sent
  | ok s => exact answered_content (f s) sent

/-- The four-coordinate check of `distanceWithHaversine` and `routeDistance`. -/
theorem distance_shape (P : Platform) (args : JsVal) :
    Run.Rejected "Missing required parameters: lat1, lon1, lat2, lon2"
        (distanceWithHaversineTool P args, [])
      ∨ Run.Answered (distanceWithHaversineTool P args, []) := by
  unfold distanceWithHaversineTool
  simp only [bind, Except.bind, pure, Except.pure]
  repeat' split
  all_goals first
    | exact .inr (answered_error _ _)
    | exact .inl rfl
    | exact .inr (answered_content _ _)

/-- The three ways a prelude ends: it throws, it rejects the call with the given
message, or it goes on to the request. -/
theorem reverseGeocodePrelude_shape (env : Env) (args : JsVal) :
    (∃ e, reverseGeocodePrelude env args = .error e)
      ∨ reverseGeocodePrelude env args
          = .ok (.answer (errorEnvelope (-32602) "Missing required parameters: lat, lon"))
      ∨ ∃ u, reverseGeocodePrelude env args = .ok (.url u) := by
  unfold reverseGeocodePrelude
  simp only [bind, Except.bind, pure, Except.pure]
  repeat' split
  all_goals simp

theorem reverseGeocode_shape (env : Env) (P : Platform) (args : JsVal) :
    Run.Rejected "Missing required parameters: lat, lon" (reverseGeocodeTool env P args)
      ∨ Run.Answered (reverseGeocodeTool env P args) := by
  unfold reverseGeocodeTool
  rcases reverseGeocodePrelude_shape env args with ⟨e, h⟩ | h | ⟨u, h⟩
  · rw [h]; exact .inr (answered_error _ _)
  · rw [h]; exact .inl rfl
  · rw [h]; exact .inr (answered_map _ _ _)

theorem geocodePrelude_shape (env : Env) (P : Platform) (args : JsVal) :
    (∃ e, geocodePrelude env P args = .error e)
      ∨ geocodePrelude env P args
          = .ok (.answer (errorEnvelope (-32602) "Missing required parameter: address"))
      ∨ ∃ u, geocodePrelude env P args = .ok (.url u) := by
  unfold geocodePrelude
  simp only [bind, Except.bind, pure, Except.pure]
  repeat' split
  all_goals simp

theorem geocodeAnswer_answered (result : JsVal) (sent : List HttpRequest) :
    Run.Answered (geocodeAnswer result, sent) := by
  unfold geocodeAnswer
  simp only [bind, Except.bind, pure, Except.pure]
  repeat' split
  all_goals first
    | exact answered_error _ _
    | exact answered_content _ _

theorem geocode_shape (env : Env) (P : Platform) (args : JsVal) :
    Run.Rejected "Missing required parameter: address" (geocodeTool env P args)
      ∨ Run.Answered (geocodeTool env P args) := by
  unfold geocodeTool
  rcases geocodePrelude_shape env P args with ⟨e, h⟩ | h | ⟨u, h⟩
  · rw [h]; exact .inr (answered_error _ _)
  · rw [h]; exact .inl rfl
  · rw [h]; exact .inr (geocodeAnswer_answered _ _)

theorem routeDistancePrelude_shape (env : Env) (args : JsVal) :
    (∃ e, routeDistancePrelude env args = .error e)
      ∨ routeDistancePrelude env args
          = .ok (.answer (errorEnvelope (-32602)
              "Missing required parameters: lat1, lon1, lat2, lon2"))
      ∨ ∃ u, routeDistancePrelude env args = .ok (.url u) := by
  unfold routeDistancePrelude
  simp only [bind, Except.bind, pure, Except.pure]
  repeat' split
  all_goals simp

theorem routeDistanceAnswer_answered (P : Platform) (distance : JsVal)
    (sent : List HttpRequest) : Run.Answered (routeDistanceAnswer P distance, sent) := by
  unfold routeDistanceAnswer
  simp only [bind, Except.bind, pure, Except.pure]
  repeat' split
  all_goals first
    | exact answered_error _ _
    | exact answered_content _ _

theorem routeDistance_shape (env : Env) (P : Platform) (args : JsVal) :
    Run.Rejected "Missing required parameters: lat1, lon1, lat2, lon2"
        (routeDistanceTool env P args)
      ∨ Run.Answered (routeDistanceTool env P args) := by
  unfold routeDistanceTool
  rcases routeDistancePrelude_shape env args with ⟨e, h⟩ | h | ⟨u, h⟩
  · rw [h]; exact .inr (answered_error _ _)
  · rw [h]; exact .inl rfl
  · rw [h]; exact .inr (routeDistanceAnswer_answered _ _ _)

theorem listEventsBody_answered (env : Env) (P : Platform)
    (latitude longitude radius startDate endDate : JsVal) :
    Run.Answered (listEventsBody env P latitude longitude radius startDate endDate) := by
  unfold listEventsBody
  split
  · exact answered_error _ _
  · dsimp only
    split
    · exact .inl ⟨_, rfl, by simp [IsTextItems]⟩
    · exact answered_content _ _

theorem listEvents_shape (env : Env) (P : Platform) (args : JsVal) :
    Run.Rejected "Missing required parameters: latitude, longitude, start_date, end_date"
        (listEventsTool env P args)
      ∨ Run.Answered (listEventsTool env P args) := by
  unfold listEventsTool
  split
  · exact .inr (answered_error _ _)
  · split
    · exact .inl rfl
    · exact .inr (listEventsBody_answered _ _ _ _ _ _ _)


/-! ## The parameter checks, on an argument object -/

theorem requiredPresent_four (a b c d : String) (props : List (String × JsVal)) :
    requiredPresent [a, b, c, d] props
      = !(!(lookup a props).truthy || !(lookup b props).truthy
          || !(lookup c props).truthy || !(lookup d props).truthy) := by
  simp only [requiredPresent, List.all_cons, List.all_nil, Bool.and_true]
  cases (lookup a props).truthy <;> cases (lookup b props).truthy <;>
    cases (lookup c props).truthy <;> cases (lookup d props).truthy <;> rfl

theorem requiredPresent_two (a b : String) (props : List (String × JsVal)) :
    requiredPresent [a, b] props
      = !(!(lookup a props).truthy || !(lookup b props).truthy) := by
  simp only [requiredPresent, List.all_cons, List.all_nil, Bool.and_true]
  cases (lookup a props).truthy <;> cases (lookup b props).truthy <;> rfl

theorem requiredPresent_one (a : String) (props : List (String × JsVal)) :
    requiredPresent [a] props = !(!(lookup a props).truthy) := by
  simp [requiredPresent]

theorem distance_checked (P : Platform) (props : List (String × JsVal)) :
    (requiredPresent ["lat1", "lon1", "lat2", "lon2"] props = false →
        Run.Rejected "Missing required parameters: lat1, lon1, lat2, lon2"
          (distanceWithHaversineTool P (.obj props), []))
      ∧ (requiredPresent ["lat1", "lon1", "lat2", "lon2"] props = true →
        Run.Answered (distanceWithHaversineTool P (.obj props), [])) := by
  rw [requiredPresent_four]
  constructor
  · intro h
    simp only [Bool.not_eq_false'] at h
    simp only [distanceWithHaversineTool, bind, Except.bind, pure, Except.pure, argOf_obj, h,
      if_true, Run.Rejected]
  · intro h
    simp only [Bool.not_eq_true'] at h
    simp only [distanceWithHaversineTool, bind, Except.bind, pure, Except.pure, argOf_obj, h,
      Bool.false_eq_true, if_false]
    repeat' split
    all_goals first
      | exact answered_error _ _
      | exact answered_content _ _

theorem reverseGeocode_checked (env : Env) (P : Platform) (props : List (String × JsVal)) :
    (requiredPresent ["lat", "lon"] props = false →
        Run.Rejected "Missing required parameters: lat, lon"
          (reverseGeocodeTool env P (.obj props)))
      ∧ (requiredPresent ["lat", "lon"] props = true →
        Run.Answered (reverseGeocodeTool env P (.obj props))) := by
  rw [requiredPresent_two]
  constructor
  · intro h
    simp only [Bool.not_eq_false'] at h
    simp only [reverseGeocodeTool, reverseGeocodePrelude, bind, Except.bind, pure, Except.pure,
      argOf_obj, h, if_true, Run.Rejected]
  · intro h
    simp only [Bool.not_eq_true'] at h
    simp only [reverseGeocodeTool, reverseGeocodePrelude, bind, Except.bind, pure, Except.pure,
      argOf_obj, h, Bool.false_eq_true, if_false]
    cases (lookup "lat" props).toStr with
    | error e => exact answered_error _ _
    | ok slat =>
      cases (lookup "lon" props).toStr with
      | error e => exact answered_error _ _
      | ok slon => exact answered_map _ _ _

theorem geocode_checked (env : Env) (P : Platform) (props : List (String × JsVal)) :
    (requiredPresent ["address"] props = false →
        Run.Rejected "Missing required parameter: address" (geocodeTool env P (.obj props)))
      ∧ (requiredPresent ["address"] props = true →
        Run.Answered (geocodeTool env P (.obj props))) := by
  rw [requiredPresent_one]
  constructor
  · intro h
    simp only [Bool.not_eq_false'] at h
    simp only [geocodeTool, geocodePrelude, bind, Except.bind, pure, Except.pure,
      argOf_obj, h, if_true, Run.Rejected]
  · intro h
    simp only [Bool.not_eq_true'] at h
    simp only [geocodeTool, geocodePrelude, bind, Except.bind, pure, Except.pure,
      argOf_obj, h, Bool.false_eq_true, if_false]
    cases (lookup "address" props).toStr with
    | error e => exact answered_error _ _
    | ok s =>
      dsimp only
      cases P.encodeURIComponent s with
      | error e => exact answered_error _ _
      | ok encoded => exact geocodeAnswer_answered _ _

theorem routeDistance_checked (env : Env) (P : Platform) (props : List (String × JsVal)) :
    (requiredPresent ["lat1", "lon1", "lat2", "lon2"] props = false →
        Run.Rejected "Missing required parameters: lat1, lon1, lat2, lon2"
          (routeDistanceTool env P (.obj props)))
      ∧ (requiredPresent ["lat1", "lon1", "lat2", "lon2"] props = true →
        Run.Answered (routeDistanceTool env P (.obj props))) := by
  rw [requiredPresent_four]
  constructor
  · intro h
    simp only [Bool.not_eq_false'] at h
    simp only [routeDistanceTool, routeDistancePrelude, bind, Except.bind, pure, Except.pure,
      argOf_obj, h, if_true, Run.Rejected]
  · intro h
    simp only [Bool.not_eq_true'] at h
    simp only [routeDistanceTool, routeDistancePrelude, bind, Except.bind, pure, Except.pure,
      argOf_obj, h, Bool.false_eq_true, if_false]
    cases (lookup "lat1" props).toStr with
    | error e => exact answered_error _ _
    | ok s1 =>
      cases (lookup "lon1" props).toStr with
      | error e => exact answered_error _ _
      | ok s2 =>
        cases (lookup "lat2" props).toStr with
        | error e => exact answered_error _ _
        | ok s3 =>
          cases (lookup "lon2" props).toStr with
          | error e => exact answered_error _ _
          | ok s4 => exact routeDistanceAnswer_answered _ _ _

theorem listEvents_checked (env : Env) (P : Platform) (props : List (String × JsVal)) :
    (requiredPresent ["latitude", "longitude", "start_date", "end_date"] props = false →
        Run.Rejected "Missing required parameters: latitude, longitude, start_date, end_date"
          (listEventsTool env P (.obj props)))
      ∧ (requiredPresent ["latitude", "longitude", "start_date", "end_date"] props = true →
        Run.Answered (listEventsTool env P (.obj props))) := by
  rw [requiredPresent_four]
  constructor
  · intro h
    simp only [Bool.not_eq_false'] at h
    simp only [listEventsTool, bind, Except.bind, pure, Except.pure, argOf_obj, h, if_true,
      Run.Rejected]
  · intro h
    simp only [Bool.not_eq_true'] at h
    simp only [listEventsTool, bind, Except.bind, pure, Except.pure, argOf_obj, h,
      Bool.false_eq_true, if_false]
    exact listEventsBody_answered _ _ _ _ _ _ _


/-! ## From the outcome of a tool to the response -/

theorem errorCode_errorEnvelope (code : Int) (message : String) :
    errorCode (errorEnvelope code message) = some (JsNum.ofInt code) := by
  simp [errorCode, errorEnvelope, lookup]

theorem errorMessage_errorEnvelope (code : Int) (message : String) :
    errorMessage (errorEnvelope code message) = some message := by
  simp [errorMessage, errorEnvelope, lookup]

theorem errorCode_contentEnvelope (items : List JsVal) :
    errorCode (contentEnvelope items) = none := by
  simp [errorCode, contentEnvelope, lookup]

theorem errorCode_internalError (e : Thrown) :
    errorCode (internalError e) = some (JsNum.ofInt (-32603)) := by
  simp [errorCode, internalError, lookup]

theorem isEnvelope_content (items : List JsVal) (h : IsTextItems items) :
    IsEnvelope (contentEnvelope items) :=
  ⟨_, rfl, .inl ⟨by simp [hasKey], by simp [hasKey], items, by simp [lookup], h⟩⟩

theorem isEnvelope_error (code : Int) (message : String) :
    IsEnvelope (errorEnvelope code message) :=
  ⟨_, rfl, .inr ⟨by simp [hasKey], by simp [hasKey], code, message,
    by simp [lookup, JsVal.get], by simp [lookup, JsVal.get]⟩⟩

theorem isEnvelope_internalError (e : Thrown) : IsEnvelope (internalError e) :=
  ⟨_, rfl, .inr ⟨by simp [hasKey], by simp [hasKey], -32603, "Internal error",
    by simp [lookup, JsVal.get], by simp [lookup, JsVal.get]⟩⟩

theorem rejected_toReply (message : String) (r : Run) (h : Run.Rejected message r) :
    r.toReply.response = errorEnvelope (-32602) message ∧ r.toReply.sent = [] := by
  rw [h]; exact ⟨rfl, rfl⟩

theorem answered_errorCode (r : Run) (h : Run.Answered r) :
    errorCode r.toReply.response = none
      ∨ errorCode r.toReply.response = some (JsNum.ofInt (-32603)) := by
  obtain ⟨v, sent⟩ := r
  rcases h with ⟨items, h, _⟩ | ⟨e, h⟩
  · simp only at h; subst h
    exact .inl (errorCode_contentEnvelope items)
  · simp only at h; subst h
    exact .inr (errorCode_internalError e)

theorem answered_isEnvelope (r : Run) (h : Run.Answered r) : IsEnvelope r.toReply.response := by
  obtain ⟨v, sent⟩ := r
  rcases h with ⟨items, h, ht⟩ | ⟨e, h⟩
  · simp only at h; subst h
    exact isEnvelope_content items ht
  · simp only at h; subst h
    exact isEnvelope_internalError e

theorem toolNotFound_isEnvelope (name : JsVal) (sent : List HttpRequest) :
    IsEnvelope (Run.toReply (toolNotFound name, sent)).response := by
  unfold toolNotFound
  cases name.toStr with
  | error e => exact isEnvelope_internalError e
  | ok s => exact isEnvelope_error _ _

/-! ## The two `tools/call` branches -/

theorem nominatimCall_checked (env : Env) (P : Platform) (t : ToolDescriptor)
    (ht : t ∈ nominatimTOOLS) (props : List (String × JsVal)) :
    (requiredPresent t.required props = false →
        Run.Rejected (rejectionMessage t) (nominatimCall env P (.str t.name) (.obj props)))
      ∧ (requiredPresent t.required props = true →
        Run.Answered (nominatimCall env P (.str t.name) (.obj props))) := by
  simp only [nominatimTOOLS, List.mem_cons, List.mem_singleton, List.not_mem_nil,
    or_false] at ht
  rcases ht with rfl | rfl | rfl | rfl | rfl
  · exact ⟨fun h => by simp [requiredPresent] at h,
      fun _ => answered_content _ _⟩
  · simpa [nominatimCall] using distance_checked P props
  · simpa [nominatimCall] using reverseGeocode_checked env P props
  · simpa [nominatimCall] using geocode_checked env P props
  · simpa [nominatimCall] using routeDistance_checked env P props

theorem bayerncloudCall_checked (env : Env) (P : Platform) (t : ToolDescriptor)
    (ht : t ∈ bayerncloudTOOLS) (props : List (String × JsVal)) :
    (requiredPresent t.required props = false →
        Run.Rejected (rejectionMessage t) (bayerncloudCall env P (.str t.name) (.obj props)))
      ∧ (requiredPresent t.required props = true →
        Run.Answered (bayerncloudCall env P (.str t.name) (.obj props))) := by
  simp only [bayerncloudTOOLS, List.mem_cons, List.mem_singleton, List.not_mem_nil,
    or_false] at ht
  rcases ht with rfl | rfl
  · exact ⟨fun h => by simp [requiredPresent] at h,
      fun _ => answered_content _ _⟩
  · simpa [bayerncloudCall] using listEvents_checked env P props


/-! ## C6: methods without a branch -/

/-- C6. In both servers a request whose method is none of "initialize", "tools/list",
"tools/call", "resources/list" and "prompts/list" is answered, whatever its params
and id, with the empty object (no `error` key, no `content` key), and no HTTP request
is sent. -/
theorem unknown_method_empty_object (env : Env) (P : Platform) (request : Request)
    (h1 : request.method ≠ "initialize") (h2 : request.method ≠ "tools/list")
    (h3 : request.method ≠ "tools/call") (h4 : request.method ≠ "resources/list")
    (h5 : request.method ≠ "prompts/list") :
    ((nominatimHandler env P request).response = .obj []
        ∧ (nominatimHandler env P request).sent = [])
      ∧ ((bayerncloudHandler env P request).response = .obj []
        ∧ (bayerncloudHandler env P request).sent = []) := by
  simp [nominatimHandler, nominatimRun, bayerncloudHandler, bayerncloudRun, h1, h2, h3, h4, h5,
    Run.toReply]

/-- C6, at the request `ping`. -/
theorem unknown_method_empty_object_witness :
    ((nominatimHandler plainEnv (platformAnswering (.failed "offline"))
          ⟨"ping", .undefined, .null⟩).response = .obj []
        ∧ (nominatimHandler plainEnv (platformAnswering (.failed "offline"))
          ⟨"ping", .undefined, .null⟩).sent = [])
      ∧ ((bayerncloudHandler plainEnv (platformAnswering (.failed "offline"))
          ⟨"ping", .undefined, .null⟩).response = .obj []
        ∧ (bayerncloudHandler plainEnv (platformAnswering (.failed "offline"))
          ⟨"ping", .undefined, .null⟩).sent = []) :=
  unknown_method_empty_object plainEnv (platformAnswering (.failed "offline"))
    ⟨"ping", .undefined, .null⟩ (by decide) (by decide) (by decide) (by decide) (by decide)

/-! ## C1: names outside the registry -/

theorem ofInt_ne_32601 :
    JsNum.ofInt (-32602) ≠ JsNum.ofInt (-32601) ∧ JsNum.ofInt (-32603) ≠ JsNum.ofInt (-32601) := by
  decide

theorem checked_ne_notFound (r : Run) (message text : String)
    (h : Run.Rejected message r ∨ Run.Answered r) :
    r.toReply.response ≠ errorEnvelope (-32601) text := by
  intro heq
  have hc : errorCode r.toReply.response = some (JsNum.ofInt (-32601)) := by
    rw [heq]; exact errorCode_errorEnvelope _ _
  rcases h with h | h
  · rw [(rejected_toReply message r h).1, errorCode_errorEnvelope] at hc
    exact ofInt_ne_32601.1 (Option.some.inj hc)
  · rcases answered_errorCode r h with h | h
    · rw [h] at hc; exact absurd hc (by simp)
    · rw [h] at hc; exact ofInt_ne_32601.2 (Option.some.inj hc)

theorem nominatimCall_registered (env : Env) (P : Platform) (t : ToolDescriptor)
    (ht : t ∈ nominatimTOOLS) (args : JsVal) :
    Run.Rejected (rejectionMessage t) (nominatimCall env P (.str t.name) args)
      ∨ Run.Answered (nominatimCall env P (.str t.name) args) := by
  simp only [nominatimTOOLS, List.mem_cons, List.mem_singleton, List.not_mem_nil,
    or_false] at ht
  rcases ht with rfl | rfl | rfl | rfl | rfl
  · exact .inr (answered_content _ _)
  · simpa [nominatimCall] using distance_shape P args
  · simpa [nominatimCall] using reverseGeocode_shape env P args
  · simpa [nominatimCall] using geocode_shape env P args
  · simpa [nominatimCall] using routeDistance_shape env P args

theorem bayerncloudCall_registered (env : Env) (P : Platform) (t : ToolDescriptor)
    (ht : t ∈ bayerncloudTOOLS) (args : JsVal) :
    Run.Rejected (rejectionMessage t) (bayerncloudCall env P (.str t.name) args)
      ∨ Run.Answered (bayerncloudCall env P (.str t.name) args) := by
  simp only [bayerncloudTOOLS, List.mem_cons, List.mem_singleton, List.not_mem_nil,
    or_false] at ht
  rcases ht with rfl | rfl
  · exact .inr (answered_content _ _)
  · simpa [bayerncloudCall] using listEvents_shape env P args

theorem nominatimCall_unregistered (env : Env) (P : Platform) (name : Option String)
    (args : JsVal) (h : ∀ t ∈ nominatimTOOLS, name ≠ some t.name) :
    nominatimCall env P (nameValue name) args
      = (.ok (errorEnvelope (-32601) ("Tool not found: " ++ name.getD "undefined")), []) := by
  cases name with
  | none => rfl
  | some n =>
    have key : ∀ t ∈ nominatimTOOLS, n ≠ t.name := fun t ht e => h t ht (by rw [e])
    simp only [nominatimTOOLS, List.mem_cons, List.mem_singleton, List.not_mem_nil, or_false,
      forall_eq_or_imp, forall_eq] at key
    obtain ⟨h1, h2, h3, h4, h5⟩ := key
    simp only [aboutDescriptor_name, distanceWithHaversineDescriptor_name,
      reverseGeocodeDescriptor_name, geocodeDescriptor_name, routeDistanceDescriptor_name]
      at h1 h2 h3 h4 h5
    simp [nameValue, nominatimCall, h1, h2, h3, h4, h5, toolNotFound, JsVal.toStr, Except.map]

theorem bayerncloudCall_unregistered (env : Env) (P : Platform) (name : Option String)
    (args : JsVal) (h : ∀ t ∈ bayerncloudTOOLS, name ≠ some t.name) :
    bayerncloudCall env P (nameValue name) args
      = (.ok (errorEnvelope (-32601) ("Tool not found: " ++ name.getD "undefined")), []) := by
  cases name with
  | none => rfl
  | some n =>
    have key : ∀ t ∈ bayerncloudTOOLS, n ≠ t.name := fun t ht e => h t ht (by rw [e])
    simp only [bayerncloudTOOLS, List.mem_cons, List.mem_singleton, List.not_mem_nil, or_false,
      forall_eq_or_imp, forall_eq] at key
    obtain ⟨h1, h2⟩ := key
    simp only [aboutDescriptor_name, listEventsDescriptor_name] at h1 h2
    simp [nameValue, bayerncloudCall, h1, h2, toolNotFound, JsVal.toStr, Except.map]

/-- C1. In each of the two servers `tools/list` returns the registry `TOOLS`, and for
every tool name `n`, given or absent, and every value of the arguments, a `tools/call`
request returns the error envelope with code -32601 and message "Tool not found: <n>"
if and only if `n` is not the name of a descriptor of that registry; in that case no
HTTP request is sent. -/
theorem tool_not_found_iff_unregistered (env : Env) (P : Platform) (request : Request)
    (name : Option String) (args : JsVal)
    (hm : request.method = "tools/call")
    (hp : callParams request.params = (nameValue name, args)) :
    ((nominatimHandler env P ⟨"tools/list", request.params, request.id⟩).response
          = .obj [("tools", .arr (nominatimTOOLS.map ToolDescriptor.toJson))]
        ∧ ((nominatimHandler env P request).response
              = errorEnvelope (-32601) ("Tool not found: " ++ name.getD "undefined")
            ↔ ∀ t ∈ nominatimTOOLS, name ≠ some t.name)
        ∧ ((∀ t ∈ nominatimTOOLS, name ≠ some t.name) →
            (nominatimHandler env P request).sent = []))
      ∧ ((bayerncloudHandler env P ⟨"tools/list", request.params, request.id⟩).response
          = .obj [("tools", .arr (bayerncloudTOOLS.map ToolDescriptor.toJson))]
        ∧ ((bayerncloudHandler env P request).response
              = errorEnvelope (-32601) ("Tool not found: " ++ name.getD "undefined")
            ↔ ∀ t ∈ bayerncloudTOOLS, name ≠ some t.name)
        ∧ ((∀ t ∈ bayerncloudTOOLS, name ≠ some t.name) →
            (bayerncloudHandler env P request).sent = [])) := by
  have hn : nominatimHandler env P request
      = (nominatimCall env P (nameValue name) args).toReply := by
    simp [nominatimHandler, nominatimRun, hm, hp]
  have hb : bayerncloudHandler env P request
      = (bayerncloudCall env P (nameValue name) args).toReply := by
    simp [bayerncloudHandler, bayerncloudRun, hm, hp]
  refine ⟨⟨rfl, ⟨?_, ?_⟩, ?_⟩, ⟨rfl, ⟨?_, ?_⟩, ?_⟩⟩
  · intro h t ht hname
    subst hname
    rw [hn] at h
    exact checked_ne_notFound _ _ _ (nominatimCall_registered env P t ht args) h
  · intro h
    rw [hn, nominatimCall_unregistered env P name args h]; rfl
  · intro h
    rw [hn, nominatimCall_unregistered env P name args h]; rfl
  · intro h t ht hname
    subst hname
    rw [hb] at h
    exact checked_ne_notFound _ _ _ (bayerncloudCall_registered env P t ht args) h
  · intro h
    rw [hb, bayerncloudCall_unregistered env P name args h]; rfl
  · intro h
    rw [hb, bayerncloudCall_unregistered env P name args h]; rfl

/-- C1, at the name "weather", which neither registry has. -/
theorem tool_not_found_iff_unregistered_witness :
    (nominatimHandler plainEnv (platformAnswering (.failed "offline"))
        (toolsCall "weather" (.obj []))).response
      = errorEnvelope (-32601) "Tool not found: weather"
    ∧ (bayerncloudHandler plainEnv (platformAnswering (.failed "offline"))
        (toolsCall "weather" (.obj []))).response
      = errorEnvelope (-32601) "Tool not found: weather" := by
  have h := tool_not_found_iff_unregistered plainEnv (platformAnswering (.failed "offline"))
    (toolsCall "weather" (.obj [])) (some "weather") (.obj []) rfl rfl
  exact ⟨h.1.2.1.2 (by decide), h.2.2.1.2 (by decide)⟩


/-! ## C2: the check of the required parameters -/

theorem requiredPresent_eq_false (required : List String) (props : List (String × JsVal)) :
    requiredPresent required props = false
      ↔ ∃ k ∈ required, (lookup k props).truthy = false := by
  simp [requiredPresent]

theorem ofInt_ne_32602 : JsNum.ofInt (-32603) ≠ JsNum.ofInt (-32602) := by decide

theorem checked_errorCode (r : Run) (message : String) (present : Bool)
    (h : (present = false → Run.Rejected message r) ∧ (present = true → Run.Answered r)) :
    (errorCode r.toReply.response = some (JsNum.ofInt (-32602)) ↔ present = false)
      ∧ (errorCode r.toReply.response = some (JsNum.ofInt (-32602)) →
          errorMessage r.toReply.response = some message ∧ r.toReply.sent = []) := by
  cases present with
  | false =>
    have hr := rejected_toReply message r (h.1 rfl)
    rw [hr.1, errorCode_errorEnvelope, errorMessage_errorEnvelope]
    exact ⟨⟨fun _ => rfl, fun _ => rfl⟩, fun _ => ⟨rfl, hr.2⟩⟩
  | true =>
    have hne : errorCode r.toReply.response ≠ some (JsNum.ofInt (-32602)) := by
      intro hc
      rcases answered_errorCode r (h.2 rfl) with h1 | h1
      · rw [h1] at hc; exact absurd hc (by simp)
      · rw [h1] at hc; exact ofInt_ne_32602 (Option.some.inj hc)
    exact ⟨⟨fun hc => absurd hc hne, fun hc => absurd hc (by simp)⟩, fun hc => absurd hc hne⟩

/-- C2. In both servers, for every registered tool `t` and every argument object, the
response of `tools/call` is an error envelope with code -32602 exactly when at least
one parameter named in `t`'s `inputSchema.required` is absent or falsy in the
arguments; whenever it is, no HTTP request is sent. In particular a required
parameter equal to 0 (a coordinate of `distanceWithHaversine`, `routeDistance`,
`reverse_geocode` or `list_events`) makes the call be rejected with -32602. -/
theorem missing_required_rejected (env : Env) (P : Platform) (request : Request)
    (t : ToolDescriptor) (props : List (String × JsVal))
    (hm : request.method = "tools/call")
    (hp : callParams request.params = (.str t.name, .obj props)) :
    (t ∈ nominatimTOOLS →
        (errorCode (nominatimHandler env P request).response = some (JsNum.ofInt (-32602))
            ↔ ∃ k ∈ t.required, (lookup k props).truthy = false)
        ∧ (errorCode (nominatimHandler env P request).response = some (JsNum.ofInt (-32602))
            → (nominatimHandler env P request).sent = [])
        ∧ ∀ k ∈ t.required, ∀ (neg : Bool) (e : Int), lookup k props = .num (.fin neg 0 e) →
            errorCode (nominatimHandler env P request).response
              = some (JsNum.ofInt (-32602)))
      ∧ (t ∈ bayerncloudTOOLS →
        (errorCode (bayerncloudHandler env P request).response = some (JsNum.ofInt (-32602))
            ↔ ∃ k ∈ t.required, (lookup k props).truthy = false)
        ∧ (errorCode (bayerncloudHandler env P request).response = some (JsNum.ofInt (-32602))
            → (bayerncloudHandler env P request).sent = [])
        ∧ ∀ k ∈ t.required, ∀ (neg : Bool) (e : Int), lookup k props = .num (.fin neg 0 e) →
            errorCode (bayerncloudHandler env P request).response
              = some (JsNum.ofInt (-32602))) := by
  have hn : nominatimHandler env P request
      = (nominatimCall env P (.str t.name) (.obj props)).toReply := by
    simp [nominatimHandler, nominatimRun, hm, hp]
  have hb : bayerncloudHandler env P request
      = (bayerncloudCall env P (.str t.name) (.obj props)).toReply := by
    simp [bayerncloudHandler, bayerncloudRun, hm, hp]
  constructor
  · intro ht
    have hc := checked_errorCode _ _ _ (nominatimCall_checked env P t ht props)
    rw [hn, ← requiredPresent_eq_false]
    refine ⟨hc.1, fun h => (hc.2 h).2, ?_⟩
    intro k hk neg e hz
    exact hc.1.2 ((requiredPresent_eq_false _ _).2 ⟨k, hk, by rw [hz]; rfl⟩)
  · intro ht
    have hc := checked_errorCode _ _ _ (bayerncloudCall_checked env P t ht props)
    rw [hb, ← requiredPresent_eq_false]
    refine ⟨hc.1, fun h => (hc.2 h).2, ?_⟩
    intro k hk neg e hz
    exact hc.1.2 ((requiredPresent_eq_false _ _).2 ⟨k, hk, by rw [hz]; rfl⟩)

/-- C2, at a `reverse_geocode` call on the equator: `lat: 0` is rejected with -32602. -/
theorem missing_required_rejected_witness :
    errorCode (nominatimHandler plainEnv (platformAnswering (.failed "offline"))
        (toolsCall "reverse_geocode"
          (.obj [("lat", .num (JsNum.ofNat 0)), ("lon", .num (JsNum.ofNat 11))]))).response
      = some (JsNum.ofInt (-32602)) :=
  ((missing_required_rejected plainEnv (platformAnswering (.failed "offline"))
    (toolsCall "reverse_geocode"
      (.obj [("lat", .num (JsNum.ofNat 0)), ("lon", .num (JsNum.ofNat 11))]))
    reverseGeocodeDescriptor
    [("lat", .num (JsNum.ofNat 0)), ("lon", .num (JsNum.ofNat 11))] rfl rfl).1
    (by simp [nominatimTOOLS])).2.2 "lat" (by simp) false 0 rfl

/-! ## C3: the message of a rejected call -/

/-- C3, as amended. Whenever a `tools/call` request for a registered tool with an
argument object is rejected with code -32602, the message is the fixed text of that
tool: "Missing required parameters: " followed by all the names of the tool's
`required` list joined by a comma and a space, whichever of them are missing; for
`geocode`, which has one required parameter, it is "Missing required parameter:
address". -/
theorem rejection_message_lists_all_required (env : Env) (P : Platform) (request : Request)
    (t : ToolDescriptor) (props : List (String × JsVal))
    (hm : request.method = "tools/call")
    (hp : callParams request.params = (.str t.name, .obj props)) :
    (t ∈ nominatimTOOLS →
        errorCode (nominatimHandler env P request).response = some (JsNum.ofInt (-32602)) →
        errorMessage (nominatimHandler env P request).response = some (rejectionMessage t))
      ∧ (t ∈ bayerncloudTOOLS →
        errorCode (bayerncloudHandler env P request).response = some (JsNum.ofInt (-32602)) →
        errorMessage (bayerncloudHandler env P request).response
          = some (rejectionMessage t)) := by
  have hn : nominatimHandler env P request
      = (nominatimCall env P (.str t.name) (.obj props)).toReply := by
    simp [nominatimHandler, nominatimRun, hm, hp]
  have hb : bayerncloudHandler env P request
      = (bayerncloudCall env P (.str t.name) (.obj props)).toReply := by
    simp [bayerncloudHandler, bayerncloudRun, hm, hp]
  constructor
  · intro ht h
    rw [hn] at h ⊢
    exact ((checked_errorCode _ _ _ (nominatimCall_checked env P t ht props)).2 h).1
  · intro ht h
    rw [hb] at h ⊢
    exact ((checked_errorCode _ _ _ (bayerncloudCall_checked env P t ht props)).2 h).1

/-- C3, at a `reverse_geocode` call that has `lat` and lacks `lon`: the message names
both parameters. -/
theorem rejection_message_lists_all_required_witness :
    errorMessage (nominatimHandler plainEnv (platformAnswering (.failed "offline"))
        (toolsCall "reverse_geocode" (.obj [("lat", .num (JsNum.ofNat 48))]))).response
      = some "Missing required parameters: lat, lon" :=
  (rejection_message_lists_all_required plainEnv (platformAnswering (.failed "offline"))
    (toolsCall "reverse_geocode" (.obj [("lat", .num (JsNum.ofNat 48))]))
    reverseGeocodeDescriptor
    [("lat", .num (JsNum.ofNat 48))] rfl rfl).1 (by simp [nominatimTOOLS]) (by rfl)

/-- C3, counterexamples to the claim as stated. A `reverse_geocode` call that lacks only
`lon` is rejected with "Missing required parameters: lat, lon", which is not the list
of the missing parameters, "Missing required parameters: lon"; and a `geocode` call
without `address` is rejected with "Missing required parameter: address", which is
not "Missing required parameters: address". -/
theorem rejection_message_not_the_missing_ones :
    (errorCode (nominatimHandler plainEnv (platformAnswering (.failed "offline"))
          (toolsCall "reverse_geocode" (.obj [("lat", .num (JsNum.ofNat 48))]))).response
        = some (JsNum.ofInt (-32602))
      ∧ errorMessage (nominatimHandler plainEnv (platformAnswering (.failed "offline"))
          (toolsCall "reverse_geocode" (.obj [("lat", .num (JsNum.ofNat 48))]))).response
        = some "Missing required parameters: lat, lon"
      ∧ missingParametersMessage reverseGeocodeDescriptor [("lat", .num (JsNum.ofNat 48))]
        = "Missing required parameters: lon"
      ∧ errorMessage (nominatimHandler plainEnv (platformAnswering (.failed "offline"))
          (toolsCall "reverse_geocode" (.obj [("lat", .num (JsNum.ofNat 48))]))).response
        ≠ some (missingParametersMessage reverseGeocodeDescriptor
            [("lat", .num (JsNum.ofNat 48))]))
    ∧ (errorCode (nominatimHandler plainEnv (platformAnswering (.failed "offline"))
          (toolsCall "geocode" (.obj []))).response
        = some (JsNum.ofInt (-32602))
      ∧ errorMessage (nominatimHandler plainEnv (platformAnswering (.failed "offline"))
          (toolsCall "geocode" (.obj []))).response
        = some "Missing required parameter: address"
      ∧ missingParametersMessage geocodeDescriptor [] = "Missing required parameters: address"
      ∧ errorMessage (nominatimHandler plainEnv (platformAnswering (.failed "offline"))
          (toolsCall "geocode" (.obj []))).response
        ≠ some (missingParametersMessage geocodeDescriptor [])) := by
  refine ⟨⟨by rfl, by rfl, by rfl, by decide⟩, ⟨by rfl, by rfl, by rfl, by decide⟩⟩

/-! ## C4: the envelope -/

theorem nominatimCall_isEnvelope (env : Env) (P : Platform) (name args : JsVal) :
    IsEnvelope (nominatimCall env P name args).toReply.response := by
  unfold nominatimCall
  split
  · rename_i n
    repeat' split
    · exact answered_isEnvelope _ (answered_content _ _)
    · rcases distance_shape P args with h | h
      · rw [(rejected_toReply _ _ h).1]; exact isEnvelope_error _ _
      · exact answered_isEnvelope _ h
    · rcases reverseGeocode_shape env P args with h | h
      · rw [(rejected_toReply _ _ h).1]; exact isEnvelope_error _ _
      · exact answered_isEnvelope _ h
    · rcases geocode_shape env P args with h | h
      · rw [(rejected_toReply _ _ h).1]; exact isEnvelope_error _ _
      · exact answered_isEnvelope _ h
    · rcases routeDistance_shape env P args with h | h
      · rw [(rejected_toReply _ _ h).1]; exact isEnvelope_error _ _
      · exact answered_isEnvelope _ h
    · exact toolNotFound_isEnvelope _ _
  · exact toolNotFound_isEnvelope _ _

theorem bayerncloudCall_isEnvelope (env : Env) (P : Platform) (name args : JsVal) :
    IsEnvelope (bayerncloudCall env P name args).toReply.response := by
  unfold bayerncloudCall
  split
  · rename_i n
    repeat' split
    · exact answered_isEnvelope _ (answered_content _ _)
    · rcases listEvents_shape env P args with h | h
      · rw [(rejected_toReply _ _ h).1]; exact isEnvelope_error _ _
      · exact answered_isEnvelope _ h
    · exact toolNotFound_isEnvelope _ _
  · exact toolNotFound_isEnvelope _ _

/-- C4. For every `tools/call` request to either server, whatever the tool name, the
arguments and the behaviour of the HTTP APIs, the response carries exactly one of the
keys `content` and `error`: either `content` is a non-empty list of items of type
"text" with a string `text`, or `error` has an integer `code` and a string `message`. -/
theorem tools_call_response_is_envelope (env : Env) (P : Platform) (request : Request)
    (hm : request.method = "tools/call") :
    IsEnvelope (nominatimHandler env P request).response
      ∧ IsEnvelope (bayerncloudHandler env P request).response := by
  constructor
  · simpa [nominatimHandler, nominatimRun, hm] using nominatimCall_isEnvelope env P _ _
  · simpa [bayerncloudHandler, bayerncloudRun, hm] using bayerncloudCall_isEnvelope env P _ _

/-- C4, at a `geocode` call whose request fails and at a call of `list_events` without
arguments. -/
theorem tools_call_response_is_envelope_witness :
    IsEnvelope (nominatimHandler plainEnv (platformAnswering (.failed "offline"))
        (toolsCall "geocode" (.obj [("address", .str "Marienplatz, Munich")]))).response
      ∧ IsEnvelope (bayerncloudHandler plainEnv (platformAnswering (.failed "offline"))
        (toolsCall "list_events" .null)).response :=
  ⟨(tools_call_response_is_envelope plainEnv (platformAnswering (.failed "offline"))
      (toolsCall "geocode" (.obj [("address", .str "Marienplatz, Munich")])) rfl).1,
    (tools_call_response_is_envelope plainEnv (platformAnswering (.failed "offline"))
      (toolsCall "list_events" .null) rfl).2⟩


/-! ## C5: `list_events` without events -/

/-- The events are the empty list when the request fails, when the status is not 2xx,
and when the document has no `@graph` or an empty one. -/
theorem fetchEvents_nil (P : Platform) (request : HttpRequest)
    (h : (∃ message, P.fetch request = .failed message)
      ∨ (∃ status json, P.fetch request = .response status json ∧ statusOk status = false)
      ∨ (∃ status document, P.fetch request = .response status (.ok (.obj document))
          ∧ statusOk status = true
          ∧ (lookup "@graph" document = .undefined ∨ lookup "@graph" document = .arr []))) :
    fetchEvents P request = [] := by
  rcases h with ⟨message, h⟩ | ⟨status, json, h, hs⟩ | ⟨status, document, h, hs, hg | hg⟩
  · simp [fetchEvents, h]
  · simp [fetchEvents, h, hs]
  · simp [fetchEvents, h, hs, eventsOf, JsVal.get, hg, JsVal.or, JsVal.truthy, bind, Except.bind,
      projectEvents, pure, Except.pure]
  · simp [fetchEvents, h, hs, eventsOf, JsVal.get, hg, JsVal.or, JsVal.truthy, bind, Except.bind,
      projectEvents, pure, Except.pure]

/-- C5. For every `list_events` call whose latitude, longitude, start_date and
end_date are all truthy (and have a string conversion, as numbers and strings do): if
the request to the events API fails with a network error, or is answered with a
status that is not 2xx, or with a document whose `@graph` is absent or empty, then the
response is a success envelope with exactly two text items, "No events found near
[<latitude>, <longitude>] from <start_date> to <end_date>." and the serialized empty
list "[]". -/
theorem listEvents_failure_gives_no_events (env : Env) (P : Platform) (request : Request)
    (props : List (String × JsVal)) (slat slon sstart send : String)
    (hm : request.method = "tools/call")
    (hp : callParams request.params = (.str "list_events", .obj props))
    (t1 : (lookup "latitude" props).truthy = true)
    (t2 : (lookup "longitude" props).truthy = true)
    (t3 : (lookup "start_date" props).truthy = true)
    (t4 : (lookup "end_date" props).truthy = true)
    (s1 : (lookup "latitude" props).toStr = .ok slat)
    (s2 : (lookup "longitude" props).toStr = .ok slon)
    (s3 : (lookup "start_date" props).toStr = .ok sstart)
    (s4 : (lookup "end_date" props).toStr = .ok send)
    (hfail : (∃ message, P.fetch (listEventsRequest env (lookup "latitude" props)
          (lookup "longitude" props) (radiusOrDefault (lookup "radius" props))
          (lookup "start_date" props) (lookup "end_date" props)) = .failed message)
      ∨ (∃ status json, P.fetch (listEventsRequest env (lookup "latitude" props)
          (lookup "longitude" props) (radiusOrDefault (lookup "radius" props))
          (lookup "start_date" props) (lookup "end_date" props)) = .response status json
          ∧ statusOk status = false)
      ∨ (∃ status document, P.fetch (listEventsRequest env (lookup "latitude" props)
          (lookup "longitude" props) (radiusOrDefault (lookup "radius" props))
          (lookup "start_date" props) (lookup "end_date" props))
            = .response status (.ok (.obj document))
          ∧ statusOk status = true
          ∧ (lookup "@graph" document = .undefined ∨ lookup "@graph" document = .arr []))) :
    (bayerncloudHandler env P request).response
      = contentEnvelope [textItem ("No events found near [" ++ slat ++ ", " ++ slon ++ "] from "
          ++ sstart ++ " to " ++ send ++ "."), textItem "[]"] := by
  have hev := fetchEvents_nil P _ hfail
  have hjson : jsonStringify2 (.arr []) = "[]" := by decide
  simp [bayerncloudHandler, bayerncloudRun, hm, hp, bayerncloudCall, listEventsTool, bind,
    Except.bind, pure, Except.pure, t1, t2, t3, t4, listEventsBody, listEventsLog, s1, s2, s3, s4,
    hev, listEventsSummary, hjson, Run.toReply]

/-- C5, at the scenario of the specification: the events API answers HTTP 500. -/
theorem listEvents_failure_gives_no_events_witness :
    (bayerncloudHandler plainEnv (platformAnswering (.response 500 (.error ⟨"no body"⟩)))
        (toolsCall "list_events" (.obj sampleEventArgs))).response
      = contentEnvelope [textItem
          "No events found near [48.137, 11.575] from 2025-06-01 to 2025-06-30.",
          textItem "[]"] :=
  listEvents_failure_gives_no_events plainEnv
    (platformAnswering (.response 500 (.error ⟨"no body"⟩)))
    (toolsCall "list_events" (.obj sampleEventArgs)) sampleEventArgs
    "48.137" "11.575" "2025-06-01" "2025-06-30" rfl rfl rfl rfl rfl rfl rfl rfl rfl rfl
    (.inr (.inl ⟨500, .error ⟨"no body"⟩, rfl, rfl⟩))


/-! ## C9: `formatAddress` -/

/-- C9, the code at inputs where it departs from the claim: a postal code without a
locality is dropped (the result is the fallback "No address details" although a part
is not empty), and so is a locality without a postal code; with all three parts the
result is as the claim says, and an absent address gives "No address available". -/
theorem formatAddress_drops_lone_city_part :
    formatAddress (.obj [("postalCode", .str "80331")]) = .ok (.str "No address details")
    ∧ formatAddress (.obj [("streetAddress", .str "Marienplatz 1"),
          ("addressLocality", .str "München")]) = .ok (.str "Marienplatz 1")
    ∧ formatAddress (.obj [("streetAddress", .str "Marienplatz 1"), ("postalCode", .str "80331"),
          ("addressLocality", .str "München")]) = .ok (.str "Marienplatz 1, 80331 München")
    ∧ formatAddress .undefined = .ok (.str "No address available") := by
  refine ⟨by rfl, by rfl, by rfl, by rfl⟩



/-! ## C8: the symmetry of `haversine` -/

theorem roundRatio_not (s : Bool) (p q : Nat) :
    roundRatio (!s) p q = (roundRatio s p q).neg := by
  unfold roundRatio
  by_cases h : p = 0 ∨ q = 0
  · rw [if_pos h, if_pos h]; rfl
  · rw [if_neg h, if_neg h]
    dsimp only
    rw [apply_ite JsNum.neg]
    rfl

theorem roundDyadic_not (s : Bool) (m : Nat) (e : Int) :
    roundDyadic (!s) m e = (roundDyadic s m e).neg := by
  unfold roundDyadic
  split <;> exact roundRatio_not _ _ _

theorem JsNum.neg_fin (n : Bool) (m : Nat) (e : Int) :
    (JsNum.fin n m e).neg = .fin (!n) m e := rfl

theorem JsNum.neg_inf (n : Bool) : (JsNum.inf n).neg = .inf (!n) := rfl

theorem JsNum.neg_nan : JsNum.nan.neg = .nan := rfl

theorem JsNum.neg_neg (a : JsNum) : a.neg.neg = a := by
  cases a <;> simp [JsNum.neg]

theorem not_bne (a b : Bool) : ((!a) != b) = !(a != b) := by
  cases a <;> cases b <;> rfl

theorem JsNum.neg_mul (a b : JsNum) : a.neg.mul b = (a.mul b).neg := by
  cases a <;> cases b <;>
    simp only [JsNum.mul, JsNum.neg_fin, JsNum.neg_inf, JsNum.neg_nan, apply_ite JsNum.neg,
      not_bne, roundDyadic_not]

theorem bne_comm_bool (a b : Bool) : (a != b) = (b != a) := by
  cases a <;> cases b <;> rfl

theorem JsNum.mul_comm (a b : JsNum) : a.mul b = b.mul a := by
  cases a <;> cases b <;>
    simp only [JsNum.mul, bne_comm_bool, Nat.mul_comm, Int.add_comm]

theorem JsNum.neg_div (a b : JsNum) : a.neg.div b = (a.div b).neg := by
  cases a <;> cases b <;>
    simp only [JsNum.div, JsNum.neg_fin, JsNum.neg_inf, JsNum.neg_nan, apply_ite JsNum.neg,
      not_bne, roundRatio_not]

theorem add_fin_swap (n1 n2 : Bool) (A B : Nat) (lo : Int) :
    (if n1 = !n2 then roundDyadic n1 (A + B) lo
      else if B < A then roundDyadic n1 (A - B) lo
      else if A < B then roundDyadic (!n2) (B - A) lo
      else JsNum.fin false 0 0)
      = JsNum.neg (if n2 = !n1 then roundDyadic n2 (B + A) lo
          else if A < B then roundDyadic n2 (B - A) lo
          else if B < A then roundDyadic (!n1) (A - B) lo
          else JsNum.fin false 0 0)
    ∨ (if n1 = !n2 then roundDyadic n1 (A + B) lo
      else if B < A then roundDyadic n1 (A - B) lo
      else if A < B then roundDyadic (!n2) (B - A) lo
      else JsNum.fin false 0 0)
      = (if n2 = !n1 then roundDyadic n2 (B + A) lo
          else if A < B then roundDyadic n2 (B - A) lo
          else if B < A then roundDyadic (!n1) (A - B) lo
          else JsNum.fin false 0 0) := by
  rcases Nat.lt_trichotomy A B with h | h | h
  · have h2 : ¬ B < A := Nat.lt_asymm h
    left
    cases n1 <;> cases n2 <;>
      simp [h, h2, Nat.add_comm, ← roundDyadic_not]
  · subst h
    cases n1 <;> cases n2 <;>
      simp [Nat.add_comm, ← roundDyadic_not]
  · have h2 : ¬ A < B := Nat.lt_asymm h
    left
    cases n1 <;> cases n2 <;>
      simp [h, h2, Nat.add_comm, ← roundDyadic_not]

theorem JsNum.sub_swap (a b : JsNum) : a.sub b = (b.sub a).neg ∨ a.sub b = b.sub a := by
  cases a with
  | nan => right; cases b <;> rfl
  | inf n1 =>
    cases b with
    | nan => right; rfl
    | inf n2 =>
      left
      cases n1 <;> cases n2 <;> rfl
    | fin n2 m2 e2 => left; simp [JsNum.sub, JsNum.add, JsNum.neg]
  | fin n1 m1 e1 =>
    cases b with
    | nan => right; rfl
    | inf n2 => left; simp [JsNum.sub, JsNum.add, JsNum.neg]
    | fin n2 m2 e2 =>
      simp only [JsNum.sub, JsNum.neg_fin, JsNum.add, min_comm e2 e1]
      exact add_fin_swap n1 n2 _ _ _

/-- In an arithmetic with the sign laws, `haversine` has the same value for the two
points in either order. -/
theorem haversine_symm_of_signSymmetric {N : Type} (M : JsMath N) (neg : N → N)
    (h : M.SignSymmetric neg) (lat1 lon1 lat2 lon2 : N) :
    haversine M lat1 lon1 lat2 lon2 = haversine M lat2 lon2 lat1 lon1 := by
  obtain ⟨hnn, hsub, hmul, hcomm, hdiv, hsin⟩ := h
  have hmulr : ∀ a b, M.mul a (neg b) = neg (M.mul a b) := fun a b => by
    rw [hcomm a (neg b), hmul, hcomm]
  have hhalf : ∀ x, M.sin (M.div (M.div (M.mul (neg x) M.PI) (M.ofNat 180)) (M.ofNat 2))
      = neg (M.sin (M.div (M.div (M.mul x M.PI) (M.ofNat 180)) (M.ofNat 2))) := fun x => by
    rw [hmul, hdiv, hdiv, hsin]
  have hsq : ∀ a b, M.mul (M.sin (M.div (M.div (M.mul (M.sub a b) M.PI) (M.ofNat 180)) (M.ofNat 2)))
        (M.sin (M.div (M.div (M.mul (M.sub a b) M.PI) (M.ofNat 180)) (M.ofNat 2)))
      = M.mul (M.sin (M.div (M.div (M.mul (M.sub b a) M.PI) (M.ofNat 180)) (M.ofNat 2)))
        (M.sin (M.div (M.div (M.mul (M.sub b a) M.PI) (M.ofNat 180)) (M.ofNat 2))) := fun a b => by
    rcases hsub a b with e | e
    · rw [e, hhalf, hmul, hmulr, hnn]
    · rw [e]
  have hprod : ∀ (c : N) a b,
      M.mul (M.mul c (M.sin (M.div (M.div (M.mul (M.sub a b) M.PI) (M.ofNat 180)) (M.ofNat 2))))
        (M.sin (M.div (M.div (M.mul (M.sub a b) M.PI) (M.ofNat 180)) (M.ofNat 2)))
      = M.mul (M.mul c (M.sin (M.div (M.div (M.mul (M.sub b a) M.PI) (M.ofNat 180)) (M.ofNat 2))))
        (M.sin (M.div (M.div (M.mul (M.sub b a) M.PI) (M.ofNat 180)) (M.ofNat 2))) := fun c a b => by
    rcases hsub a b with e | e
    · rw [e, hhalf, hmulr, hmulr, hmul, hnn]
    · rw [e]
  simp only [haversine]
  rw [hsq lat2 lat1, hprod _ lon2 lon1,
    hcomm (M.cos (M.div (M.mul lat1 M.PI) (M.ofNat 180)))
      (M.cos (M.div (M.mul lat2 M.PI) (M.ofNat 180)))]

/-- The binary64 arithmetic of a platform whose `Math.sin` is odd has the sign laws. -/
theorem binary64Math_signSymmetric (P : Platform) (hodd : ∀ x, P.sin x.neg = (P.sin x).neg) :
    (binary64Math P).SignSymmetric JsNum.neg :=
  ⟨JsNum.neg_neg, JsNum.sub_swap, JsNum.neg_mul, JsNum.mul_comm, JsNum.neg_div, hodd⟩

/-- The text of a `distanceWithHaversine` call with four non-zero numbers. -/
theorem distance_response (env : Env) (P : Platform) (request : Request)
    (props : List (String × JsVal)) (lat1 lon1 lat2 lon2 : JsNum)
    (hm : request.method = "tools/call")
    (hp : callParams request.params = (.str "distanceWithHaversine", .obj props))
    (h1 : lookup "lat1" props = .num lat1) (h2 : lookup "lon1" props = .num lon1)
    (h3 : lookup "lat2" props = .num lat2) (h4 : lookup "lon2" props = .num lon2)
    (t1 : (JsVal.num lat1).truthy = true) (t2 : (JsVal.num lon1).truthy = true)
    (t3 : (JsVal.num lat2).truthy = true) (t4 : (JsVal.num lon2).truthy = true) :
    (nominatimHandler env P request).response
      = contentEnvelope [textItem ("The distance between the two points is "
          ++ (haversine (binary64Math P) lat1 lon1 lat2 lon2).toFixed2 ++ " kilometers.")] := by
  simp [nominatimHandler, nominatimRun, hm, hp, nominatimCall, distanceWithHaversineTool, bind,
    Except.bind, pure, Except.pure, h1, h2, h3, h4, t1, t2, t3, t4, JsVal.toNumber, Run.toReply]

/-- C8. In the binary64 arithmetic of JavaScript, on a platform whose `Math.sin` is odd
(`sin(-x) = -sin(x)`), the Haversine distance is symmetric:
`haversine(lat1, lon1, lat2, lon2) = haversine(lat2, lon2, lat1, lon1)` for all
coordinates, and therefore for every argument object with four non-zero numeric
coordinates the `distanceWithHaversine` tool returns the same response when the two
points are swapped. -/
theorem haversine_symmetric (P : Platform) (hodd : ∀ x, P.sin x.neg = (P.sin x).neg) :
    (∀ lat1 lon1 lat2 lon2 : JsNum,
        haversine (binary64Math P) lat1 lon1 lat2 lon2
          = haversine (binary64Math P) lat2 lon2 lat1 lon1)
    ∧ (∀ (env : Env) (request swapped : Request)
        (props props' : List (String × JsVal)) (lat1 lon1 lat2 lon2 : JsNum),
        request.method = "tools/call" → swapped.method = "tools/call" →
        callParams request.params = (.str "distanceWithHaversine", .obj props) →
        callParams swapped.params = (.str "distanceWithHaversine", .obj props') →
        lookup "lat1" props = .num lat1 → lookup "lon1" props = .num lon1 →
        lookup "lat2" props = .num lat2 → lookup "lon2" props = .num lon2 →
        lookup "lat1" props' = .num lat2 → lookup "lon1" props' = .num lon2 →
        lookup "lat2" props' = .num lat1 → lookup "lon2" props' = .num lon1 →
        (JsVal.num lat1).truthy = true → (JsVal.num lon1).truthy = true →
        (JsVal.num lat2).truthy = true → (JsVal.num lon2).truthy = true →
        (nominatimHandler env P request).response = (nominatimHandler env P swapped).response) := by
  have hsym := haversine_symm_of_signSymmetric (binary64Math P) JsNum.neg
    (binary64Math_signSymmetric P hodd)
  refine ⟨hsym, ?_⟩
  intro env request swapped props props' lat1 lon1 lat2 lon2 hm hm' hp hp' h1 h2 h3 h4
    h1' h2' h3' h4' t1 t2 t3 t4
  rw [distance_response env P request props lat1 lon1 lat2 lon2 hm hp h1 h2 h3 h4 t1 t2 t3 t4,
    distance_response env P swapped props' lat2 lon2 lat1 lon1 hm' hp' h1' h2' h3' h4' t3 t4
      t1 t2, hsym]

set_option maxRecDepth 100000 in
/-- C8, at the points (48, 11) and (49, 12) on the platform `platformAnswering`, whose
`sin` is the identity and so is odd: both orders give the same response, here the
distance 1.94 of the stand-in `Math` functions. -/
theorem haversine_symmetric_witness :
    (nominatimHandler plainEnv (platformAnswering (.failed "offline"))
        (toolsCall "distanceWithHaversine" (.obj sampleRouteArgs))).response
      = (nominatimHandler plainEnv (platformAnswering (.failed "offline"))
        (toolsCall "distanceWithHaversine" (.obj swappedRouteArgs))).response
    ∧ (nominatimHandler plainEnv (platformAnswering (.failed "offline"))
        (toolsCall "distanceWithHaversine" (.obj swappedRouteArgs))).response
      = contentEnvelope [textItem "The distance between the two points is 1.94 kilometers."] :=
  ⟨(haversine_symmetric (platformAnswering (.failed "offline")) (fun _ => rfl)).2 plainEnv
    (toolsCall "distanceWithHaversine" (.obj sampleRouteArgs))
    (toolsCall "distanceWithHaversine" (.obj swappedRouteArgs))
    sampleRouteArgs swappedRouteArgs (JsNum.ofNat 48) (JsNum.ofNat 11) (JsNum.ofNat 49)
    (JsNum.ofNat 12) rfl rfl rfl rfl rfl rfl rfl rfl rfl rfl rfl rfl rfl rfl rfl rfl,
    by rfl⟩



/-! ## C12: `geocode` -/

theorem toReply_sent (x : Except Thrown JsVal) (sent : List HttpRequest) :
    (Run.toReply (x, sent)).sent = sent := by
  cases x <;> rfl

/-- The `geocode` handler with a non-empty address that `encodeURIComponent` accepts
reaches its request. -/
theorem geocodePrelude_ok (env : Env) (P : Platform) (args : List (String × JsVal))
    (address encoded : String) (ht : (lookup "address" args).truthy = true)
    (ha : (lookup "address" args).toStr = .ok address)
    (henc : P.encodeURIComponent address = .ok encoded) :
    geocodePrelude env P (.obj args) = .ok (.url (searchUrl env encoded)) := by
  simp [geocodePrelude, bind, Except.bind, pure, Except.pure, ha, ht, henc]

/-- The response of a `geocode` call with a non-empty address that is accepted is the
answer the handler builds from the result of `fetchCoordinates`. -/
theorem geocode_response (env : Env) (P : Platform) (request : Request)
    (args : List (String × JsVal)) (address encoded : String)
    (hm : request.method = "tools/call")
    (hp : callParams request.params = (.str "geocode", .obj args))
    (ht : (lookup "address" args).truthy = true)
    (ha : (lookup "address" args).toStr = .ok address)
    (henc : P.encodeURIComponent address = .ok encoded) :
    nominatimHandler env P request
      = Run.toReply (geocodeAnswer (fetchCoordinates P (searchUrl env encoded)),
          [getRequest (searchUrl env encoded)]) := by
  have hpre := geocodePrelude_ok env P args address encoded ht ha henc
  simp [nominatimHandler, nominatimRun, hm, hp, nominatimCall, geocodeTool, hpre]

/-- The result of `fetchCoordinates` for a response with `ok` and a non-empty array
whose first element has the three fields. -/
theorem fetchCoordinates_first (P : Platform) (url : String) (status : Nat)
    (first : JsVal) (rest : List JsVal) (lat lon name : JsVal)
    (hf : P.fetch (getRequest url) = .response status (.ok (.arr (first :: rest))))
    (hok : statusOk status = true)
    (h1 : first.get "lat" = .ok lat) (h2 : first.get "lon" = .ok lon)
    (h3 : first.get "display_name" = .ok name) :
    fetchCoordinates P url
      = .obj [("latitude", lat), ("longitude", lon), ("display_name", name)] := by
  simp [fetchCoordinates, hf, hok, coordinatesOf, bind, Except.bind, pure, Except.pure,
    get_arr_length, get_arr_zero, greaterThanZero_length, h1, h2, h3]

/-- C12, as amended. For every `geocode` call with a non-empty address (any truthy
argument whose string conversion is `address`): if
`encodeURIComponent` rejects the address (an unpaired surrogate), the handler throws
before any request and the response is the -32603 envelope. Otherwise one request is
sent and the response is determined by the upstream outcome: (a) a 2xx response
carrying a non-empty array whose first element is not `null` gives the one text item
"The coordinates for the address are: Latitude <lat>, Longitude <lon>. Address:
<display_name>", built from the fields of the first match only, when the three fields
have a string conversion, and the -32603 envelope when one of them has none; (a') a
first element `null` gives "Error fetching geocode"; (b) a 2xx response carrying an
empty array gives "Address not found"; (c) a network failure, (d) a response that is
not 2xx and (e) a body that is not JSON give "Error fetching geocode". -/
theorem geocode_text_by_outcome (env : Env) (P : Platform) (request : Request)
    (args : List (String × JsVal)) (address : String)
    (hm : request.method = "tools/call")
    (hp : callParams request.params = (.str "geocode", .obj args))
    (ht : (lookup "address" args).truthy = true)
    (ha : (lookup "address" args).toStr = .ok address) :
    (∀ e, P.encodeURIComponent address = .error e →
        (nominatimHandler env P request).response = internalError e
        ∧ (nominatimHandler env P request).sent = [])
    ∧ (∀ encoded, P.encodeURIComponent address = .ok encoded →
      (nominatimHandler env P request).sent = [getRequest (searchUrl env encoded)]
      ∧ (∀ (status : Nat) (first : JsVal) (rest : List JsVal) (lat lon name : JsVal),
        P.fetch (getRequest (searchUrl env encoded))
            = .response status (.ok (.arr (first :: rest))) →
        statusOk status = true →
        first.get "lat" = .ok lat → first.get "lon" = .ok lon →
        first.get "display_name" = .ok name →
        (∀ slat slon sname, lat.toStr = .ok slat → lon.toStr = .ok slon →
          name.toStr = .ok sname →
          (nominatimHandler env P request).response
            = contentEnvelope [textItem ("The coordinates for the address are: Latitude " ++ slat
                ++ ", Longitude " ++ slon ++ ". Address: " ++ sname)])
        ∧ (∀ e, lat.toStr = .error e →
            (nominatimHandler env P request).response = internalError e)
        ∧ (∀ slat e, lat.toStr = .ok slat → lon.toStr = .error e →
            (nominatimHandler env P request).response = internalError e)
        ∧ (∀ slat slon e, lat.toStr = .ok slat → lon.toStr = .ok slon → name.toStr = .error e →
            (nominatimHandler env P request).response = internalError e))
      ∧ (∀ (status : Nat) (first : JsVal) (rest : List JsVal),
        P.fetch (getRequest (searchUrl env encoded))
            = .response status (.ok (.arr (first :: rest))) →
        statusOk status = true → first = .null ∨ first = .undefined →
        (nominatimHandler env P request).response
          = contentEnvelope [textItem "Error fetching geocode"])
      ∧ (∀ (status : Nat),
        P.fetch (getRequest (searchUrl env encoded)) = .response status (.ok (.arr [])) →
        statusOk status = true →
        (nominatimHandler env P request).response
          = contentEnvelope [textItem "Address not found"])
      ∧ (∀ (message : String),
        P.fetch (getRequest (searchUrl env encoded)) = .failed message →
        (nominatimHandler env P request).response
          = contentEnvelope [textItem "Error fetching geocode"])
      ∧ (∀ (status : Nat) (json : Except Thrown JsVal),
        P.fetch (getRequest (searchUrl env encoded)) = .response status json →
        statusOk status = false →
        (nominatimHandler env P request).response
          = contentEnvelope [textItem "Error fetching geocode"])
      ∧ (∀ (status : Nat) (e : Thrown),
        P.fetch (getRequest (searchUrl env encoded)) = .response status (.error e) →
        (nominatimHandler env P request).response
          = contentEnvelope [textItem "Error fetching geocode"])) := by
  constructor
  · intro e henc
    simp [nominatimHandler, nominatimRun, hm, hp, nominatimCall, geocodeTool, geocodePrelude, bind,
      Except.bind, pure, Except.pure, ha, ht, henc, Run.toReply]
  · intro encoded henc
    have hr := geocode_response env P request args address encoded hm hp ht ha henc
    refine ⟨by rw [hr]; exact toReply_sent _ _, ?_, ?_, ?_, ?_, ?_, ?_⟩
    · intro status first rest lat lon name hf hok h1 h2 h3
      have hc := fetchCoordinates_first P _ status first rest lat lon name hf hok h1 h2 h3
      rw [hr, hc]
      refine ⟨?_, ?_, ?_, ?_⟩
      · intro slat slon sname s1 s2 s3
        simp [geocodeAnswer, JsVal.get, lookup, bind, Except.bind, pure, Except.pure, s1, s2, s3,
          Run.toReply]
      · intro e s1
        simp [geocodeAnswer, JsVal.get, lookup, bind, Except.bind, s1, Run.toReply]
      · intro slat e s1 s2
        simp [geocodeAnswer, JsVal.get, lookup, bind, Except.bind, s1, s2, Run.toReply]
      · intro slat slon e s1 s2 s3
        simp [geocodeAnswer, JsVal.get, lookup, bind, Except.bind, s1, s2, s3, Run.toReply]
    · intro status first rest hf hok hnull
      have hc : fetchCoordinates P (searchUrl env encoded) = .str "Error fetching geocode" := by
        rcases hnull with rfl | rfl <;>
          simp [fetchCoordinates, hf, hok, coordinatesOf, bind, Except.bind, pure, Except.pure,
            get_arr_length, get_arr_zero, greaterThanZero_length, JsVal.get]
      rw [hr, hc]
      simp [geocodeAnswer, pure, Except.pure, Run.toReply]
    · intro status hf hok
      have hc : fetchCoordinates P (searchUrl env encoded) = .str "Address not found" := by
        simp [fetchCoordinates, hf, hok, coordinatesOf, bind, Except.bind, pure, Except.pure,
          get_arr_length, greaterThanZero_zero]
      rw [hr, hc]
      simp [geocodeAnswer, pure, Except.pure, Run.toReply]
    · intro message hf
      have hc : fetchCoordinates P (searchUrl env encoded) = .str "Error fetching geocode" := by
        simp [fetchCoordinates, hf]
      rw [hr, hc]
      simp [geocodeAnswer, pure, Except.pure, Run.toReply]
    · intro status json hf hok
      have hc : fetchCoordinates P (searchUrl env encoded) = .str "Error fetching geocode" := by
        simp [fetchCoordinates, hf, hok]
      rw [hr, hc]
      simp [geocodeAnswer, pure, Except.pure, Run.toReply]
    · intro status e hf
      have hc : fetchCoordinates P (searchUrl env encoded) = .str "Error fetching geocode" := by
        simp [fetchCoordinates, hf]
      rw [hr, hc]
      simp [geocodeAnswer, pure, Except.pure, Run.toReply]

/-- C12, the witness of the specification: the match `{lat: "48.137", lon: "11.575",
display_name: "Marienplatz, Munich, Germany"}` for the address "Marienplatz, Munich". -/
theorem geocode_text_by_outcome_witness :
    (nominatimHandler plainEnv (platformAnswering marienplatzResponse)
        (toolsCall "geocode" (.obj [("address", .str "Marienplatz, Munich")]))).response
      = contentEnvelope [textItem
          "The coordinates for the address are: Latitude 48.137, Longitude 11.575. Address: Marienplatz, Munich, Germany"] :=
  ((((geocode_text_by_outcome plainEnv (platformAnswering marienplatzResponse)
    (toolsCall "geocode" (.obj [("address", .str "Marienplatz, Munich")]))
    [("address", .str "Marienplatz, Munich")] "Marienplatz, Munich" rfl rfl rfl rfl).2
    "Marienplatz, Munich" rfl).2.1
    200 marienplatzMatch [] (.str "48.137") (.str "11.575") (.str "Marienplatz, Munich, Germany")
    rfl rfl rfl rfl rfl).1 "48.137" "11.575" "Marienplatz, Munich, Germany" rfl rfl rfl)

/-- C12, counterexamples to the claim as stated. A 2xx response carrying the non-empty
array `[null]` gives "Error fetching geocode", not the coordinates text; and a first
match whose `lat` is the object `{toString: 1}` gives the -32603 envelope, not a
success envelope. -/
theorem geocode_malformed_first_match :
    (nominatimHandler plainEnv (platformAnswering (.response 200 (.ok (.arr [.null]))))
        (toolsCall "geocode" (.obj [("address", .str "Marienplatz, Munich")]))).response
      = contentEnvelope [textItem "Error fetching geocode"]
    ∧ (nominatimHandler plainEnv
        (platformAnswering (.response 200 (.ok (.arr [.obj [
          ("lat", .obj [("toString", .num (JsNum.ofNat 1))]), ("lon", .str "11.575"),
          ("display_name", .str "Marienplatz, Munich, Germany")]]))))
        (toolsCall "geocode" (.obj [("address", .str "Marienplatz, Munich")]))).response
      = internalError ⟨"Cannot convert object to primitive value"⟩ := by
  exact ⟨by rfl, by rfl⟩


/-! ## C10: the dates of a projected event -/

theorem get_ok_of_get_ok (v w : JsVal) (k k2 : String) (h : v.get k = .ok w) :
    ∃ w2, v.get k2 = .ok w2 := by
  cases v <;> simp [JsVal.get] at h ⊢
  all_goals repeat' split
  all_goals simp

theorem truthy_joined (sd st : String) : (JsVal.str (sd ++ "T" ++ st)).truthy = true := by
  have h : sd ++ "T" ++ st ≠ "" := by
    intro h
    have h2 := congrArg String.data h
    simp [String.data_append] at h2
  simp [JsVal.truthy, h]

theorem or_or_eq_resolvedDate_schedule (own d t : JsVal) (sd st fallback : String)
    (hs : d.truthy = true → t.truthy = true → d.toStr = .ok sd ∧ t.toStr = .ok st) :
    ∃ dt, scheduleDateTime d t = .ok dt
      ∧ (own.or dt).or (.str fallback) = resolvedDate own d t sd st fallback := by
  have hj := truthy_joined sd st
  have hnull : JsVal.null.truthy = false := rfl
  unfold scheduleDateTime resolvedDate JsVal.or
  cases hown : own.truthy <;> cases hd : d.truthy <;> cases ht2 : t.truthy <;>
    simp [bind, Except.bind, pure, Except.pure, hown, hd, ht2, JsVal.or, hj, hnull]
  all_goals
    obtain ⟨h1, h2⟩ := hs hd ht2
    simp [h1, h2, hj]

theorem or_or_eq_resolvedDate_plain (own : JsVal) (fallback : String) :
    (own.or (own.or .null)).or (.str fallback)
      = resolvedDate own .undefined .undefined "" "" fallback := by
  have hnull : JsVal.null.truthy = false := rfl
  have hundef : JsVal.undefined.truthy = false := rfl
  unfold resolvedDate JsVal.or
  cases hown : own.truthy <;> simp [hown, hnull, hundef]

@[simp] theorem get_obj (props : List (String × JsVal)) (k : String) :
    (JsVal.obj props).get k = .ok (lookup k props) := rfl

/-- For an event record (whose location is projected to `loc`) the projection has,
after `id`, `title`, `description` and `location`, the `startDate` and `endDate` of
claim C10: the event's own date when it is present and non-empty;
otherwise, when `eventSchedule` has a first entry with a date, that date joined by "T"
with the entry's time when it has one and the date alone when not; otherwise "Unknown
start date" or "Unknown end date". Of a schedule only the first entry occurs in the
result (`rest` is arbitrary), and without schedule entries there are the own date and
the fallback. -/
theorem projectEvent_dates (P : Platform) (fields : List (String × JsVal)) (loc : JsVal)
    (hloc : locationInfoOf P (.obj fields) = .ok loc) :
    (∀ (entry : JsVal) (rest : List JsVal) (d1 t1 d2 t2 : JsVal) (sd1 st1 sd2 st2 : String),
        lookup "eventSchedule" fields = .arr (entry :: rest) →
        entry.get "startDate" = .ok d1 → entry.get "startTime" = .ok t1 →
        entry.get "endDate" = .ok d2 → entry.get "endTime" = .ok t2 →
        (d1.truthy = true → t1.truthy = true → d1.toStr = .ok sd1 ∧ t1.toStr = .ok st1) →
        (d2.truthy = true → t2.truthy = true → d2.toStr = .ok sd2 ∧ t2.toStr = .ok st2) →
        projectEvent P (.obj fields) = .ok (.obj [
          ("id", (lookup "@id" fields).or (.str "Unknown ID")),
          ("title", (lookup "name" fields).or (.str "Unnamed Event")),
          ("description", (lookup "description" fields).or (.str "No description available")),
          ("location", loc),
          ("startDate",
            resolvedDate (lookup "startDate" fields) d1 t1 sd1 st1 "Unknown start date"),
          ("endDate",
            resolvedDate (lookup "endDate" fields) d2 t2 sd2 st2 "Unknown end date")]))
    ∧ ((lookup "eventSchedule" fields = .undefined ∨ lookup "eventSchedule" fields = .arr []) →
        projectEvent P (.obj fields) = .ok (.obj [
          ("id", (lookup "@id" fields).or (.str "Unknown ID")),
          ("title", (lookup "name" fields).or (.str "Unnamed Event")),
          ("description", (lookup "description" fields).or (.str "No description available")),
          ("location", loc),
          ("startDate", resolvedDate (lookup "startDate" fields) .undefined .undefined "" ""
            "Unknown start date"),
          ("endDate", resolvedDate (lookup "endDate" fields) .undefined .undefined "" ""
            "Unknown end date")])) := by
  constructor
  · intro entry rest d1 t1 d2 t2 sd1 st1 sd2 st2 hsched h1 h2 h3 h4 s1 s2
    obtain ⟨dt1, hdt1, e1⟩ :=
      or_or_eq_resolvedDate_schedule (lookup "startDate" fields) d1 t1 sd1 st1
        "Unknown start date" s1
    obtain ⟨dt2, hdt2, e2⟩ :=
      or_or_eq_resolvedDate_schedule (lookup "endDate" fields) d2 t2 sd2 st2
        "Unknown end date" s2
    obtain ⟨tz, htz⟩ := get_ok_of_get_ok entry d1 "startDate" "scheduleTimezone" h1
    have htruthy : (JsVal.arr (entry :: rest)).truthy = true := rfl
    simp [projectEvent, hloc, getScheduleInfo, hsched, htruthy, get_arr_length, get_arr_zero,
      greaterThanZero_length, h1, h2, h3, h4, hdt1, hdt2, htz, bind, Except.bind, pure,
      Except.pure, lookup, e1, e2]
  · intro hsched
    have e1 := or_or_eq_resolvedDate_plain (lookup "startDate" fields) "Unknown start date"
    have e2 := or_or_eq_resolvedDate_plain (lookup "endDate" fields) "Unknown end date"
    have hundef : JsVal.undefined.truthy = false := rfl
    have htruthy : (JsVal.arr []).truthy = true := rfl
    rcases hsched with hsched | hsched
    · simp [projectEvent, hloc, getScheduleInfo, hsched, hundef, bind, Except.bind, pure,
        Except.pure, lookup, e1, e2]
    · simp [projectEvent, hloc, getScheduleInfo, hsched, htruthy, get_arr_length,
        greaterThanZero_zero, bind, Except.bind, pure, Except.pure, lookup, e1, e2]

/-- An event whose first schedule entry is `null` or `undefined` makes the callback of
`events.map` throw (at the read of `schedule.startDate`). -/
theorem projectEvent_null_entry (P : Platform) (fields : List (String × JsVal)) (loc : JsVal)
    (entry : JsVal) (rest : List JsVal)
    (hloc : locationInfoOf P (.obj fields) = .ok loc)
    (hsched : lookup "eventSchedule" fields = .arr (entry :: rest))
    (hnull : entry = .null ∨ entry = .undefined) :
    ∃ e, projectEvent P (.obj fields) = .error e := by
  have htruthy : (JsVal.arr (entry :: rest)).truthy = true := rfl
  rcases hnull with rfl | rfl <;>
    simp [projectEvent, hloc, getScheduleInfo, hsched, htruthy, get_arr_length, get_arr_zero,
      greaterThanZero_length, bind, Except.bind, JsVal.get]

theorem projectEvents_ok (P : Platform) (records projections : List JsVal)
    (h : List.Forall₂ (fun record projection => projectEvent P record = .ok projection)
      records projections) :
    projectEvents P records = .ok projections := by
  induction h with
  | nil => rfl
  | cons h _ ih => simp [projectEvents, h, ih, bind, Except.bind, pure, Except.pure]

theorem projectEvents_error (P : Platform) (records : List JsVal)
    (h : ∃ record ∈ records, ∃ e, projectEvent P record = .error e) :
    ∃ e, projectEvents P records = .error e := by
  induction records with
  | nil => simp at h
  | cons first rest ih =>
    cases hfirst : projectEvent P first with
    | error e => exact ⟨e, by simp [projectEvents, hfirst, bind, Except.bind]⟩
    | ok p =>
      obtain ⟨record, hmem, e, he⟩ := h
      rcases List.mem_cons.mp hmem with rfl | hmem
      · rw [hfirst] at he; cases he
      · obtain ⟨e2, h2⟩ := ih ⟨record, hmem, e, he⟩
        exact ⟨e2, by simp [projectEvents, hfirst, h2, bind, Except.bind]⟩

/-- The events of a response with `ok` whose `@graph` is the array `records`. -/
theorem fetchEvents_graph (P : Platform) (request : HttpRequest) (status : Nat)
    (document : List (String × JsVal)) (records : List JsVal)
    (hfetch : P.fetch request = .response status (.ok (.obj document)))
    (hok : statusOk status = true)
    (hgraph : lookup "@graph" document = .arr records) :
    fetchEvents P request
      = (match projectEvents P records with
        | .ok projections => projections
        | .error _ => []) := by
  have htruthy : (JsVal.arr records).truthy = true := rfl
  simp only [fetchEvents, hfetch, hok, eventsOf, get_obj, hgraph, JsVal.or, htruthy, bind,
    Except.bind, Bool.not_true, Bool.false_eq_true, if_false, if_true]
  cases projectEvents P records <;> rfl

/-- The response of `list_events` to a document with the records `records`. -/
theorem listEvents_graph_response (env : Env) (P : Platform) (request : Request)
    (props : List (String × JsVal)) (slat slon sstart send : String)
    (status : Nat) (document : List (String × JsVal)) (records : List JsVal)
    (hm : request.method = "tools/call")
    (hp : callParams request.params = (.str "list_events", .obj props))
    (t1 : (lookup "latitude" props).truthy = true)
    (t2 : (lookup "longitude" props).truthy = true)
    (t3 : (lookup "start_date" props).truthy = true)
    (t4 : (lookup "end_date" props).truthy = true)
    (s1 : (lookup "latitude" props).toStr = .ok slat)
    (s2 : (lookup "longitude" props).toStr = .ok slon)
    (s3 : (lookup "start_date" props).toStr = .ok sstart)
    (s4 : (lookup "end_date" props).toStr = .ok send)
    (hfetch : P.fetch (listEventsRequest env (lookup "latitude" props)
        (lookup "longitude" props) (radiusOrDefault (lookup "radius" props))
        (lookup "start_date" props) (lookup "end_date" props))
      = .response status (.ok (.obj document)))
    (hok : statusOk status = true)
    (hgraph : lookup "@graph" document = .arr records)
    (events : List JsVal)
    (hev : (match projectEvents P records with
        | .ok projections => projections
        | .error _ => []) = events) :
    (bayerncloudHandler env P request).response
      = contentEnvelope [textItem
          (if 0 < events.length then
            "Found " ++ (JsNum.ofNat events.length).toStr ++ " events near [" ++ slat ++ ", "
              ++ slon ++ "] from " ++ sstart ++ " to " ++ send ++ "."
          else
            "No events found near [" ++ slat ++ ", " ++ slon ++ "] from " ++ sstart ++ " to "
              ++ send ++ "."),
          textItem (jsonStringify2 (.arr events))] := by
  have hfe := fetchEvents_graph P _ status document records hfetch hok hgraph
  rw [hev] at hfe
  simp only [bayerncloudHandler, bayerncloudRun, hm, hp, bayerncloudCall, listEventsTool, bind,
    Except.bind, pure, Except.pure, argOf_obj, t1, t2, t3, t4, listEventsBody, listEventsLog,
    s1, s2, s3, s4, hfe, listEventsSummary, Run.toReply]
  by_cases hpos : 0 < events.length <;> simp [hpos]

/-- C10, as amended. For a `list_events` call that reaches its request and is answered
with a 2xx document whose `@graph` is the array `records`: (1) when the projection of
every record completes, the response reports the number of records and carries, as
its second text item, the serialized list of their projections; (2) when the
projection of some record throws, all records are discarded and the response is that
of an empty result; (3) the projection of a record (whose location is projected to
`loc`) has the `startDate` and `endDate` the claim states, from the event's own date
or else from the first schedule entry only (`rest` is arbitrary), a date and a time
that are joined having a string conversion; (4) a first schedule entry that is `null`
or `undefined` makes the projection throw, also for an event with a date of its own. -/
theorem event_dates_resolved (env : Env) (P : Platform) (request : Request)
    (props : List (String × JsVal)) (slat slon sstart send : String)
    (status : Nat) (document : List (String × JsVal)) (records : List JsVal)
    (hm : request.method = "tools/call")
    (hp : callParams request.params = (.str "list_events", .obj props))
    (t1 : (lookup "latitude" props).truthy = true)
    (t2 : (lookup "longitude" props).truthy = true)
    (t3 : (lookup "start_date" props).truthy = true)
    (t4 : (lookup "end_date" props).truthy = true)
    (s1 : (lookup "latitude" props).toStr = .ok slat)
    (s2 : (lookup "longitude" props).toStr = .ok slon)
    (s3 : (lookup "start_date" props).toStr = .ok sstart)
    (s4 : (lookup "end_date" props).toStr = .ok send)
    (hfetch : P.fetch (listEventsRequest env (lookup "latitude" props)
        (lookup "longitude" props) (radiusOrDefault (lookup "radius" props))
        (lookup "start_date" props) (lookup "end_date" props))
      = .response status (.ok (.obj document)))
    (hok : statusOk status = true)
    (hgraph : lookup "@graph" document = .arr records) :
    (∀ projections : List JsVal,
        List.Forall₂ (fun record projection => projectEvent P record = .ok projection)
          records projections →
        (bayerncloudHandler env P request).response
          = contentEnvelope [textItem
              (if 0 < projections.length then
                "Found " ++ (JsNum.ofNat projections.length).toStr ++ " events near [" ++ slat
                  ++ ", " ++ slon ++ "] from " ++ sstart ++ " to " ++ send ++ "."
              else
                "No events found near [" ++ slat ++ ", " ++ slon ++ "] from " ++ sstart ++ " to "
                  ++ send ++ "."),
              textItem (jsonStringify2 (.arr projections))])
    ∧ ((∃ record ∈ records, ∃ e, projectEvent P record = .error e) →
        (bayerncloudHandler env P request).response
          = contentEnvelope [textItem ("No events found near [" ++ slat ++ ", " ++ slon
              ++ "] from " ++ sstart ++ " to " ++ send ++ "."), textItem "[]"])
    ∧ (∀ (fields : List (String × JsVal)) (loc : JsVal),
        locationInfoOf P (.obj fields) = .ok loc →
        (∀ (entry : JsVal) (rest : List JsVal) (d1 t1 d2 t2 : JsVal)
            (sd1 st1 sd2 st2 : String),
            lookup "eventSchedule" fields = .arr (entry :: rest) →
            entry.get "startDate" = .ok d1 → entry.get "startTime" = .ok t1 →
            entry.get "endDate" = .ok d2 → entry.get "endTime" = .ok t2 →
            (d1.truthy = true → t1.truthy = true → d1.toStr = .ok sd1 ∧ t1.toStr = .ok st1) →
            (d2.truthy = true → t2.truthy = true → d2.toStr = .ok sd2 ∧ t2.toStr = .ok st2) →
            projectEvent P (.obj fields) = .ok (.obj [
              ("id", (lookup "@id" fields).or (.str "Unknown ID")),
              ("title", (lookup "name" fields).or (.str "Unnamed Event")),
              ("description",
                (lookup "description" fields).or (.str "No description available")),
              ("location", loc),
              ("startDate",
                resolvedDate (lookup "startDate" fields) d1 t1 sd1 st1 "Unknown start date"),
              ("endDate",
                resolvedDate (lookup "endDate" fields) d2 t2 sd2 st2 "Unknown end date")]))
        ∧ ((lookup "eventSchedule" fields = .undefined
              ∨ lookup "eventSchedule" fields = .arr []) →
            projectEvent P (.obj fields) = .ok (.obj [
              ("id", (lookup "@id" fields).or (.str "Unknown ID")),
              ("title", (lookup "name" fields).or (.str "Unnamed Event")),
              ("description",
                (lookup "description" fields).or (.str "No description available")),
              ("location", loc),
              ("startDate", resolvedDate (lookup "startDate" fields) .undefined .undefined ""
                "" "Unknown start date"),
              ("endDate", resolvedDate (lookup "endDate" fields) .undefined .undefined "" ""
                "Unknown end date")]))
        ∧ (∀ (entry : JsVal) (rest : List JsVal),
            lookup "eventSchedule" fields = .arr (entry :: rest) →
            entry = .null ∨ entry = .undefined →
            ∃ e, projectEvent P (.obj fields) = .error e)) := by
  refine ⟨?_, ?_, ?_⟩
  · intro projections hall
    have hpe := projectEvents_ok P records projections hall
    exact listEvents_graph_response env P request props slat slon sstart send status document
      records hm hp t1 t2 t3 t4 s1 s2 s3 s4 hfetch hok hgraph projections (by rw [hpe])
  · intro hsome
    obtain ⟨e, hpe⟩ := projectEvents_error P records hsome
    have h := listEvents_graph_response env P request props slat slon sstart send status
      document records hm hp t1 t2 t3 t4 s1 s2 s3 s4 hfetch hok hgraph [] (by rw [hpe])
    have hjson : jsonStringify2 (.arr []) = "[]" := by decide
    simpa [hjson] using h
  · intro fields loc hloc
    have h := projectEvent_dates P fields loc hloc
    exact ⟨h.1, h.2, fun entry rest hsched hnull =>
      projectEvent_null_entry P fields loc entry rest hloc hsched hnull⟩

/-- C10, at a document with the one record `sampleEvent`, which has two schedule entries
and no dates of its own: the start is the first entry's date and time, the end is the
first entry's date. -/
theorem event_dates_resolved_witness :
    (bayerncloudHandler plainEnv (platformAnswering sampleGraphResponse)
        (toolsCall "list_events" (.obj sampleEventArgs))).response
      = contentEnvelope [textItem
          "Found 1 events near [48.137, 11.575] from 2025-06-01 to 2025-06-30.",
          textItem (jsonStringify2 (.arr [sampleProjection]))]
    ∧ lookup "startDate" (match sampleProjection with
        | .obj fields => fields
        | _ => []) = .str "2025-06-01T19:00" :=
  ⟨(event_dates_resolved plainEnv (platformAnswering sampleGraphResponse)
    (toolsCall "list_events" (.obj sampleEventArgs)) sampleEventArgs
    "48.137" "11.575" "2025-06-01" "2025-06-30" 200 [("@graph", .arr [.obj sampleEvent])]
    [.obj sampleEvent] rfl rfl rfl rfl rfl rfl rfl rfl rfl rfl rfl rfl rfl).1
    [sampleProjection] (List.Forall₂.cons (by rfl) List.Forall₂.nil), by rfl⟩

/-- C10, counterexample to the claim as stated: the record `{startDate: "2025-06-02",
eventSchedule: [null]}` has a start date of its own, present and non-empty, and yet no
projection of it is returned: reading the first schedule entry throws and the response
is that of an empty result. -/
theorem event_with_null_schedule_is_dropped :
    (bayerncloudHandler plainEnv (platformAnswering nullScheduleResponse)
        (toolsCall "list_events" (.obj sampleEventArgs))).response
      = contentEnvelope [textItem
          "No events found near [48.137, 11.575] from 2025-06-01 to 2025-06-30.",
          textItem "[]"] := by
  rfl


end BayernMcp
